import Mathlib

/-!
# Time Ledger Engine — verification of the natural-language specification

This development embeds the core logic of a Google-Sheets-backed time
tracker (`TimerService` in `src/services/timerService.ts`) as executable
Lean definitions and proves, or refutes, the specification's claims
about it.

Modelling conventions:

* The document store (`GoogleSheetsService`) is modelled as a `Doc`: a
  list of worksheets, each a grid of string-valued cells.  Range reads
  follow the Sheets `values.get` convention: trailing empty cells and
  trailing empty rows are trimmed and a fully empty range is reported as
  absent (`none`), which is what the TypeScript code observes as
  `undefined`.  Reading a range of a worksheet that does not exist fails
  with a store error, which is what the code observes as a thrown
  Google-API error.  `values.append` ("append after the last row of the
  table", per the comment in `googleSheets.ts`) is modelled as appending
  a row after the last row of the grid.
* Engine computations are state-passing functions
  `M α = EngineState → Except TError α × EngineState × List StoreOp`;
  the third component is the trace of store calls issued, used to state
  the cache-hit and no-mutation claims.  A thrown JavaScript exception
  is an `Except.error`; mutations performed before a throw persist.
* Wall-clock instants are civil date/times (`DateTime`).  The timezone
  database behind `Date.prototype.toLocaleString` is an abstract
  parameter `Tzdb`; `tzdb tz d = none` models the `try` block of
  `getDateInTimezone` raising (invalid or unsupported timezone name).
  The process-local timezone is taken to be UTC (the deployment
  container default), so `toISOString` reads the civil fields directly.
* JavaScript numeric string operations (`Number(..)`, `String(..)`,
  `padStart(2, '0')`, `%` on floats produced by integer millisecond
  arithmetic) are embedded by executable functions whose behaviour
  matches JavaScript on the values that can actually flow into them.
-/

namespace TimeLedger

/-! ## JavaScript string/number primitives -/

/-- Decimal digit character for `d < 10` (JavaScript number printing). -/
def digitChar (d : Nat) : Char := Char.ofNat (48 + d)

/-- Decimal digit list of `n`, most significant first; `fuel` bounds the
recursion so that the definition is structural and kernel-reducible. -/
def natDigitsAux : Nat → Nat → List Char
  | 0, _ => []
  | fuel + 1, n =>
    if n < 10 then [digitChar n]
    else natDigitsAux fuel (n / 10) ++ [digitChar (n % 10)]

/-- JavaScript `String(n)` for a natural number. -/
def natToString (n : Nat) : String := String.mk (natDigitsAux (n + 1) n)

/-- JavaScript `String(i)` for an integer (`toString` on a number). -/
def intToString : Int → String
  | Int.ofNat n => natToString n
  | Int.negSucc n => "-" ++ natToString (n + 1)

/-- JavaScript `s.padStart(2, '0')`. -/
def padStart2 (s : String) : String :=
  if 2 ≤ s.length then s else String.mk (List.replicate (2 - s.length) '0') ++ s

/-- Zero-pad a natural number to (at least) two decimal digits. -/
def pad2 (n : Nat) : String := padStart2 (natToString n)

/-- Zero-pad a natural number to (at least) four decimal digits,
as `Date.prototype.toISOString` renders years `0..9999`. -/
def pad4 (n : Nat) : String :=
  let s := natToString n
  if 4 ≤ s.length then s else String.mk (List.replicate (4 - s.length) '0') ++ s

/-- Split a character list at every occurrence of `c`
(JavaScript `String.prototype.split` with a one-character separator). -/
def splitChar (c : Char) : List Char → List (List Char)
  | [] => [[]]
  | x :: xs =>
    match splitChar c xs with
    | [] => if x = c then [[], []] else [[x]]
    | g :: gs => if x = c then [] :: g :: gs else (x :: g) :: gs

/-- JavaScript `s.split(sep)` for a one-character separator. -/
def jsSplit (c : Char) (s : String) : List String :=
  (splitChar c s.toList).map String.mk

/-- JavaScript `Number(s)` restricted to the strings that occur here:
`""` coerces to `0`, a nonempty all-digit string to its decimal value,
anything else to `NaN` (`none`). -/
def jsNumber (s : String) : Option Nat :=
  if s.toList.isEmpty then some 0
  else if s.toList.all Char.isDigit then
    some (s.toList.foldl (fun a c => a * 10 + (c.toNat - 48)) 0)
  else none

/-! ## Civil date/times and the timestamp codec -/

/-- A civil (wall-clock) date/time; the engine's view of a JS `Date`. -/
structure DateTime where
  year : Nat
  month : Nat
  day : Nat
  hour : Nat
  minute : Nat
  second : Nat
  deriving DecidableEq, Repr

/-- Seconds since local midnight of a civil date/time. -/
def DateTime.secondsOfDay (d : DateTime) : Nat :=
  d.hour * 3600 + d.minute * 60 + d.second

/-- `date.toISOString().split('T')[0]` for years up to 9999, the date
part `YYYY-MM-DD` (the process-local timezone is UTC, see the header). -/
def toISODate (d : DateTime) : String :=
  pad4 d.year ++ "-" ++ pad2 d.month ++ "-" ++ pad2 d.day

/-- `formatTime12Hour` (timerService.ts:398-405): render a time of day
in the fixed `h:mm:ss AM`/`h:mm:ss PM` convention of
`toLocaleTimeString('en-US', {hour: 'numeric', ..., hour12: true})`. -/
def formatTime12Hour (d : DateTime) : String :=
  let h12 := if d.hour % 12 = 0 then 12 else d.hour % 12
  natToString h12 ++ ":" ++ pad2 d.minute ++ ":" ++ pad2 d.second
    ++ " " ++ (if d.hour % 24 < 12 then "AM" else "PM")

/-- `parse12HourTime` (timerService.ts:407-420), returning the offset in
whole seconds represented by `new Date(0, 0, 0, hour24, minutes,
seconds || 0)` relative to `new Date(0, 0, 0, 0, 0, 0)`.  `none` models
an `Invalid Date` (a `NaN` component). -/
def parse12HourTime (timeString : String) : Option Nat :=
  let parts := jsSplit ' ' timeString
  let timePart := parts.headD ""
  let period := parts.get? 1
  let tparts := jsSplit ':' timePart
  match jsNumber (tparts.headD ""), tparts.get? 1 with
  | some hours, some mstr =>
    match jsNumber mstr with
    | some minutes =>
      let seconds := ((tparts.get? 2).bind jsNumber).getD 0
      let hour24 :=
        if period = some "AM" ∧ hours = 12 then 0
        else if period = some "PM" ∧ hours ≠ 12 then hours + 12
        else hours
      some (hour24 * 3600 + minutes * 60 + seconds)
    | none => none
  | _, _ => none

/-- The duration-formatting arithmetic of `stopTimer`
(timerService.ts:65-75) on a signed duration of `dsec` whole seconds
(`durationMs = 1000 * dsec`).  Each component reproduces the value of
the JavaScript float expression (`Math.floor` of a `%`-remainder). -/
def jsDurationString (dsec : Int) : String :=
  let seconds := Int.tmod dsec 60
  let minutes := Int.fdiv dsec 60 - 60 * Int.tdiv dsec 3600
  let hours := Int.fdiv dsec 3600
  padStart2 (intToString hours) ++ ":" ++ padStart2 (intToString minutes)
    ++ ":" ++ padStart2 (intToString seconds)

/-- The duration computation of `stopTimer` (timerService.ts:62-75) from
the stored start string and the freshly written end string.  When either
string parses to an `Invalid Date` the JavaScript arithmetic yields
`NaN` components. -/
def computeDuration (startStr endStr : String) : String :=
  match parse12HourTime startStr, parse12HourTime endStr with
  | some t1, some t2 => jsDurationString ((t2 : Int) - (t1 : Int))
  | _, _ => "NaN:NaN:NaN"

/-- The timezone database behind `toLocaleString("en-CA", {timeZone})`
together with the reparse in `getDateInTimezone`; `none` models the
`try` block raising (invalid or unsupported timezone name). -/
def Tzdb : Type := String → DateTime → Option DateTime

/-- `getDateInTimezone` (timerService.ts:367-396): identity for an
absent, empty (JS falsy) or `"UTC"` timezone, otherwise the converted
civil time with fallback to the original instant when conversion
fails. -/
def getDateInTimezone (tzdb : Tzdb) (date : DateTime) (timezone : Option String) : DateTime :=
  match timezone with
  | none => date
  | some tz =>
    if tz = "" ∨ tz = "UTC" then date
    else
      match tzdb tz date with
      | some converted => converted
      | none => date

/-! ## The document store (`GoogleSheetsService`) -/

/-- A worksheet grid: row-major string cells, `grid[r][c]`; a missing
cell reads as the empty string. -/
abbrev Grid := List (List String)

/-- Drop the trailing elements of a list satisfying `p`
(the Sheets API trims trailing empty cells/rows from `values.get`). -/
def trimTrailing {α : Type} (p : α → Bool) (xs : List α) : List α :=
  (xs.reverse.dropWhile p).reverse

/-- One worksheet: a title, the numeric `sheetId` assigned by the store
at creation, and the cell grid. -/
structure Worksheet where
  title : String
  sid : Nat
  grid : Grid
  deriving DecidableEq, Repr

/-- One spreadsheet document. -/
structure Doc where
  sheets : List Worksheet
  nextId : Nat
  deriving DecidableEq, Repr

/-- Worksheet titles in document order (`getWorksheets`). -/
def Doc.titles (d : Doc) : List String := d.sheets.map (·.title)

/-- The first worksheet with the given title, as the Sheets value API
resolves a `Name!Range` reference. -/
def findSheet (d : Doc) (title : String) : Option Worksheet :=
  d.sheets.find? (·.title == title)

/-- The three cell ranges the engine reads: `A1`, `A1:B10`, `A6:C`. -/
inductive SheetRange
  | a1
  | a1b10
  | a6c
  deriving DecidableEq, Repr

/-- `values.get` on a grid: select the range rectangle, trim trailing
empty cells of each row and trailing empty rows, report a fully empty
result as absent (`undefined` in the TypeScript code). -/
def readRangeG (g : Grid) (r : SheetRange) : Option Grid :=
  let rect : Grid :=
    match r with
    | .a1 => (g.take 1).map (·.take 1)
    | .a1b10 => (g.take 10).map (·.take 2)
    | .a6c => (g.drop 5).map (·.take 3)
  let rows := trimTrailing (·.isEmpty) (rect.map (trimTrailing (· == "")))
  if rows.isEmpty then none else some rows

/-- Write one cell, extending the grid with empty rows/cells as
needed. -/
def setCell (g : Grid) (r c : Nat) (v : String) : Grid :=
  let g := if g.length ≤ r then g ++ List.replicate (r + 1 - g.length) [] else g
  g.set r (
    let row := g.getD r []
    let row := if row.length ≤ c then row ++ List.replicate (c + 1 - row.length) "" else row
    row.set c v)

/-- A `userEnteredValue` in a `batchUpdate` request, or the checkbox
`dataValidation`-only cell payload. -/
inductive CellData
  | str (s : String)
  | num (n : Nat)
  | formula (f : String)
  | checkbox
  deriving DecidableEq, Repr

/-- The rendered value a `CellData` leaves in the grid: strings as
themselves, numbers in decimal; a formula cell is stored as its formula
text (the engine never reads back a cell holding a formula, so the
computed value is irrelevant); a validation-only cell has no value. -/
def CellData.rendered : CellData → String
  | .str s => s
  | .num n => natToString n
  | .formula f => f
  | .checkbox => ""

/-- The `batchUpdate` request kinds issued by the engine. -/
inductive SheetRequest
  | updateCells (sid rowIndex columnIndex : Nat) (rows : List (List CellData))
  | checkboxValidation (sid rowIndex columnIndex : Nat)
  | setColumnWidths (sid startIndex endIndex pixelSize : Nat)
  | formatCells (sid startCol endCol : Nat) (fmt : String)
  deriving DecidableEq, Repr

/-- Write a rectangle of request cells into a grid at `(r0, c0)`. -/
def writeCells (g : Grid) (r0 c0 : Nat) (rows : List (List CellData)) : Grid :=
  (rows.foldl (fun (acc : Grid × Nat) row =>
      (((row.foldl (fun (acc2 : Grid × Nat) cell =>
          (setCell acc2.1 acc.2 acc2.2 cell.rendered, acc2.2 + 1)) (acc.1, c0)).1),
       acc.2 + 1))
    (g, r0)).1

/-- Apply one request to the worksheet it addresses (by `sheetId`).
Only `updateCells` changes cell values; validation, widths and number
formats do not affect what `values.get` returns. -/
def applyRequest (d : Doc) : SheetRequest → Doc
  | .updateCells sid r0 c0 rows =>
    { d with sheets := d.sheets.map fun w =>
        if w.sid = sid then { w with grid := writeCells w.grid r0 c0 rows } else w }
  | _ => d

/-! ## The engine monad -/

/-- The errors the engine can raise: the two typed user-facing
conditions, the `'Config sheet not found or is empty.'` error, and a
generic store failure (missing worksheet on a range read, duplicate
title on worksheet creation). -/
inductive TError
  | timerAlreadyRunning
  | noActiveTimer
  | configError
  | storeError
  deriving DecidableEq, Repr

/-- A store call, as recorded in the engine trace. -/
inductive StoreOp
  | getWorksheets
  | getWorksheetData (ws : String) (range : SheetRange)
  | createWorksheet (title : String)
  | appendRow (ws : String) (row : List String)
  | updateCell (ws cell value : String)
  | batchUpdate (reqs : List SheetRequest)
  deriving DecidableEq, Repr

/-- `true` for the calls that mutate the document. -/
def StoreOp.isMutation : StoreOp → Bool
  | .getWorksheets | .getWorksheetData _ _ => false
  | _ => true

/-- `true` exactly for the two ledger-row mutations (`appendRow`,
`updateCell`). -/
def StoreOp.isRowMutation : StoreOp → Bool
  | .appendRow _ _ | .updateCell _ _ _ => true
  | _ => false

/-- The engine's process state: the document, the per-document config
cache entry with its `Date.now()` timestamp, and the clock (epoch
milliseconds for `Date.now()`, civil UTC fields for `new Date()`). -/
structure EngineState where
  doc : Doc
  cache : Option (List (String × String) × Int)
  nowMs : Int
  nowUtc : DateTime
  deriving DecidableEq, Repr

/-- An engine computation: state in, result or thrown error, state out
(mutations before a throw persist), plus the trace of store calls. -/
def M (α : Type) : Type := EngineState → Except TError α × EngineState × List StoreOp

instance : Monad M where
  pure a := fun s => (.ok a, s, [])
  bind x f := fun s =>
    match x s with
    | (.ok a, s2, ops) =>
      match f a s2 with
      | (r, s3, ops2) => (r, s3, ops ++ ops2)
    | (.error e, s2, ops) => (.error e, s2, ops)

/-- Throw (a JavaScript `throw`). -/
def mThrow {α : Type} (e : TError) : M α := fun s => (.error e, s, [])

/-- `try x catch { h }`: the handler ignores the error value, as every
`catch` in the engine does; mutations before the throw persist. -/
def mCatch {α : Type} (x h : M α) : M α := fun s =>
  match x s with
  | (.error _, s2, ops) =>
    match h s2 with
    | (r, s3, ops2) => (r, s3, ops ++ ops2)
  | ok => ok

/-- `try x catch { ... }` where the caller only needs to know whether
`x` threw: `none` means it did. -/
def mAttempt {α : Type} (x : M α) : M (Option α) := fun s =>
  match x s with
  | (.ok a, s2, ops) => (.ok (some a), s2, ops)
  | (.error _, s2, ops) => (.ok none, s2, ops)

/-- `googleSheetsService.getWorksheets`. -/
def getWorksheetsM : M (List String) := fun s =>
  (.ok s.doc.titles, s, [.getWorksheets])

/-- `googleSheetsService.getWorksheetData`: fails when the worksheet
does not exist (the Google API rejects the range reference). -/
def getWorksheetDataM (ws : String) (r : SheetRange) : M (Option Grid) := fun s =>
  match findSheet s.doc ws with
  | none => (.error .storeError, s, [.getWorksheetData ws r])
  | some w => (.ok (readRangeG w.grid r), s, [.getWorksheetData ws r])

/-- `googleSheetsService.createWorksheet` (`addSheet`): fails on a
duplicate title, otherwise appends an empty worksheet and returns its
assigned `sheetId`. -/
def createWorksheetM (title : String) : M Nat := fun s =>
  if s.doc.titles.contains title then (.error .storeError, s, [.createWorksheet title])
  else
    (.ok s.doc.nextId,
     { s with doc := ⟨s.doc.sheets ++ [⟨title, s.doc.nextId, []⟩], s.doc.nextId + 1⟩ },
     [.createWorksheet title])

/-- `googleSheetsService.appendRow`: append the values after the last
row of the table (per the comment in `googleSheets.ts`). -/
def appendRowM (ws : String) (row : List String) : M Unit := fun s =>
  match findSheet s.doc ws with
  | none => (.error .storeError, s, [.appendRow ws row])
  | some _ =>
    (.ok (),
     { s with doc := { s.doc with sheets := s.doc.sheets.map fun w =>
         if w.title = ws then { w with grid := w.grid ++ [row] } else w } },
     [.appendRow ws row])

/-- `googleSheetsService.updateCell` on a cell reference
`C<rowNum>` (column C, 1-based row `rowNum`), as `stopTimer` issues. -/
def updateCellCM (ws : String) (rowNum : Nat) (v : String) : M Unit := fun s =>
  match findSheet s.doc ws with
  | none => (.error .storeError, s, [.updateCell ws ("C" ++ natToString rowNum) v])
  | some _ =>
    (.ok (),
     { s with doc := { s.doc with sheets := s.doc.sheets.map fun w =>
         if w.title = ws then { w with grid := setCell w.grid (rowNum - 1) 2 v } else w } },
     [.updateCell ws ("C" ++ natToString rowNum) v])

/-- `googleSheetsService.batchUpdate`. -/
def batchUpdateM (reqs : List SheetRequest) : M Unit := fun s =>
  (.ok (), { s with doc := reqs.foldl applyRequest s.doc }, [.batchUpdate reqs])

/-- `cacheTTL = 5 * 60 * 1000` milliseconds (timerService.ts:7). -/
def cacheTTL : Int := 5 * 60 * 1000

/-- Read the config cache: the snapshot, provided one exists and is
younger than the TTL (`getConfig`, timerService.ts:264-267). -/
def cacheLookupM : M (Option (List (String × String))) := fun s =>
  (.ok (match s.cache with
        | some (cfg, ts) => if s.nowMs - ts < cacheTTL then some cfg else none
        | none => none),
   s, [])

/-- Store a config snapshot in the cache, stamped `Date.now()`. -/
def setCacheM (cfg : List (String × String)) : M Unit := fun s =>
  (.ok (), { s with cache := some (cfg, s.nowMs) }, [])

/-- `Date.now()`. -/
def nowMsM : M Int := fun s => (.ok s.nowMs, s, [])

/-- `new Date()` (civil UTC view; the process timezone is UTC). -/
def nowUtcM : M DateTime := fun s => (.ok s.nowUtc, s, [])

/-! ## The Config cache (`getConfig`, `createConfigSheet`) -/

/-- A config mapping, as the insertion-ordered JS object built by
`data.reduce`. -/
abbrev ConfigMap := List (String × String)

/-- `acc[key] = value` on a JS object: overwrite in place or append. -/
def cfgInsert (m : ConfigMap) (k v : String) : ConfigMap :=
  if m.any (·.1 == k) then m.map (fun p => if p.1 == k then (k, v) else p)
  else m ++ [(k, v)]

/-- `config[key]`: the value, or `none` for `undefined`. -/
def cfgLookup (m : ConfigMap) (k : String) : Option String :=
  (m.find? (·.1 == k)).map (·.2)

/-- `config['Timezone'] || 'UTC'`. -/
def timezoneOf (m : ConfigMap) : String :=
  match cfgLookup m "Timezone" with
  | some v => if v = "" then "UTC" else v
  | none => "UTC"

/-- The fold of `getConfig` (timerService.ts:285-290): rows with both
columns present and nonempty become entries, all others are skipped. -/
def foldConfig (rows : Grid) : ConfigMap :=
  rows.foldl
    (fun acc row =>
      if row.getD 0 "" ≠ "" ∧ row.getD 1 "" ≠ "" then cfgInsert acc (row.getD 0 "") (row.getD 1 "")
      else acc)
    []

/-- The default config returned (and cached) when the Config segment is
absent (timerService.ts:276). -/
def defaultConfig : ConfigMap := [("Hourly Rate", "100"), ("Timezone", "UTC")]

/-- The layout mutation of `createConfigSheet` (timerService.ts:306-347):
default key/value rows, currency format on column B, column widths. -/
def configSheetRequests (configSheetId : Nat) : List SheetRequest :=
  [.updateCells configSheetId 0 0
      [[.str "Hourly Rate", .num 100], [.str "Timezone", .str "UTC"]],
   .formatCells configSheetId 1 2 "CURRENCY $#,##0.00",
   .setColumnWidths configSheetId 0 2 120]

/-- `createConfigSheet` (timerService.ts:297-350). -/
def createConfigSheet : M Unit := do
  let configSheetId ← createWorksheetM "Config"
  batchUpdateM (configSheetRequests configSheetId)

/-- `getConfig` (timerService.ts:263-295): serve a fresh cached
snapshot; otherwise read `Config!A1:B10`, falling back to creating the
Config segment with defaults when the read throws; an existing but
empty segment is an error; a successful read is folded, cached and
returned. -/
def getConfig : M ConfigMap := do
  match ← cacheLookupM with
  | some cfg => pure cfg
  | none =>
    match ← mAttempt (getWorksheetDataM "Config" .a1b10) with
    | none => do
      -- the catch branch: Config sheet missing, create it with defaults
      createConfigSheet
      setCacheM defaultConfig
      pure defaultConfig
    | some data =>
      match data with
      | none => mThrow .configError
      | some rows => do
        let config := foldConfig rows
        setCacheM config
        pure config

/-! ## The Segment Resolver (`getCurrentSheet`) -/

/-- The strict date pattern `/^\d{4}-\d{2}-\d{2}$/`
(timerService.ts:110). -/
def dateRegexTest (s : String) : Bool :=
  match s.toList with
  | [a, b, c, d, e, f, g, h, i, j] =>
    a.isDigit && b.isDigit && c.isDigit && d.isDigit && e == '-' &&
    f.isDigit && g.isDigit && h == '-' && i.isDigit && j.isDigit
  | _ => false

/-- Numeric (code-point) comparison of characters. -/
def charLt (a b : Char) : Bool := a.toNat < b.toNat

/-- Lexicographic `≤` on character lists. -/
def charListLe : List Char → List Char → Bool
  | [], _ => true
  | _ :: _, [] => false
  | a :: as, b :: bs =>
    if charLt a b then true
    else if charLt b a then false
    else charListLe as bs

/-- Lexicographic (code-point) string comparison, `a ≤ b`.  On the
equal-length, equally-punctuated `YYYY-MM-DD` strings that reach the
segment sort, `localeCompare` order coincides with this order. -/
def strLe (a b : String) : Bool := charListLe a.toList b.toList

/-- Insert into a descending-sorted list of strings. -/
def insertDesc (x : String) : List String → List String
  | [] => [x]
  | y :: ys => if strLe y x then x :: y :: ys else y :: insertDesc x ys

/-- `.sort((a, b) => b.localeCompare(a))`: sort descending. -/
def sortDesc (l : List String) : List String := l.foldr insertDesc []

/-- Is the segment's row-1 flag exactly the closed sentinel?  The open
test in the loop body of `getCurrentSheet` (timerService.ts:117):
absent data, an absent first row, or any first cell other than the
exact string `'TRUE'` counts as open. -/
def flagIsOpen (data : Option Grid) : Bool :=
  match data with
  | none => true
  | some rows =>
    match rows with
    | [] => true
    | row :: _ => row.getD 0 "" != "TRUE"

/-- The candidate loop of `getCurrentSheet` (timerService.ts:115-120). -/
def getCurrentSheetLoop : List String → M (Option String)
  | [] => pure none
  | sheetName :: rest => do
    let invoicedData ← getWorksheetDataM sheetName .a1
    if flagIsOpen invoicedData then pure (some sheetName)
    else getCurrentSheetLoop rest

/-- `getCurrentSheet` (timerService.ts:108-123). -/
def getCurrentSheet : M (Option String) := do
  let worksheets ← getWorksheetsM
  getCurrentSheetLoop (sortDesc (worksheets.filter dateRegexTest))

/-! ## The Timer State Machine -/

/-- `lastRow[1] && lastRow[1] !== ''`: the row has a start time. -/
def rowHasStart (row : List String) : Bool := row.getD 1 "" != ""

/-- `lastRow[2] && lastRow[2] !== ''`: the row has an end time. -/
def rowHasEnd (row : List String) : Bool := row.getD 2 "" != ""

/-- The pure body of `isTimerRunning` (timerService.ts:245-261) on the
`A6:C` data: the last row has a start time and no end time. -/
def isTimerRunningData (data : Option Grid) : Bool :=
  match data with
  | none => false
  | some rows =>
    if rows.isEmpty then false
    else
      let lastRow := rows.getLastD []
      rowHasStart lastRow && !rowHasEnd lastRow

/-- `isTimerRunning` (timerService.ts:245-261). -/
def isTimerRunning (worksheetName : String) : M Bool := do
  let data ← getWorksheetDataM worksheetName .a6c
  pure (isTimerRunningData data)

/-- The pure body of `findActiveTimerRow` (timerService.ts:84-106):
only the last row is checked; on success the row and its 1-based sheet
row number (`lastRowIndex + 6`, data starts at row 6). -/
def findActiveTimerRowData (data : Option Grid) : Option (List String × Nat) :=
  match data with
  | none => none
  | some rows =>
    if rows.isEmpty then none
    else
      let lastRow := rows.getLastD []
      if rowHasStart lastRow && !rowHasEnd lastRow then
        some (lastRow, rows.length - 1 + 6)
      else none

/-- `findActiveTimerRow` (timerService.ts:84-106). -/
def findActiveTimerRow (worksheetName : String) : M (Option (List String × Nat)) := do
  let data ← getWorksheetDataM worksheetName .a6c
  pure (findActiveTimerRowData data)

/-! ## The Segment Provisioner (`createNewTimeSheet`) -/

/-- The single batched layout mutation of `createNewTimeSheet`
(timerService.ts:142-239), in request order: the row-1 checkbox, the
rows-2/3 summary label+formula pairs, the row-5 headers, column widths,
the per-column number formats, and the seed formula pair at row 6
columns D-E. -/
def createNewTimeSheetRequests (newSheetId : Nat) : List SheetRequest :=
  [.checkboxValidation newSheetId 0 0,
   .updateCells newSheetId 1 0
      [[.str "Total Hours:", .formula "=SUM(D6:D)"],
       [.str "Total Billable:", .formula "=SUM(E6:E)"]],
   .updateCells newSheetId 4 0
      [[.str "Date", .str "Start", .str "End", .str "Total Time", .str "Billable Amount"]],
   .setColumnWidths newSheetId 0 5 120,
   .formatCells newSheetId 0 1 "DATE",
   .formatCells newSheetId 1 3 "TIME h:mm:ss AM/PM",
   .formatCells newSheetId 3 4 "TIME [h]:mm:ss",
   .formatCells newSheetId 4 5 "CURRENCY $#,##0.00",
   .updateCells newSheetId 5 3
      [[.formula "=IF(C6<>\"\", C6-B6, \"\")",
        .formula "=IF(D6<>\"\", D6*24*Config!$B$1, \"\")"]]]

/-- `ensureConfigSheetExists` (timerService.ts:352-365): list the
worksheets and create Config when absent; if listing throws, try to
create Config anyway. -/
def ensureConfigSheetExists : M Unit :=
  mCatch
    (do
      let worksheets ← getWorksheetsM
      if worksheets.contains "Config" then pure () else createConfigSheet)
    createConfigSheet

/-- `createNewTimeSheet` (timerService.ts:125-243): name the segment
from the timezone-adjusted current date, ensure Config exists, create
the worksheet, then issue the single batched layout mutation. -/
def createNewTimeSheet (tzdb : Tzdb) (timezone : Option String) : M String := do
  let now := getDateInTimezone tzdb (← nowUtcM) timezone
  let sheetName := toISODate now
  if sheetName = "" then mThrow .storeError
  else do
    ensureConfigSheetExists
    let newSheetId ← createWorksheetM sheetName
    batchUpdateM (createNewTimeSheetRequests newSheetId)
    pure sheetName

/-! ## The Ledger Engine (`startTimer`, `stopTimer`) -/

/-- The structured result of `startTimer` (timerService.ts:34-38). -/
structure StartResult where
  sheet : String
  date : String
  start : String
  deriving DecidableEq, Repr

/-- The structured result of `stopTimer` (timerService.ts:77-81);
`endTime` is the `end` field. -/
structure StopResult where
  sheet : String
  endTime : DateTime
  duration : String
  deriving DecidableEq, Repr

/-- `startTimer` (timerService.ts:13-39). -/
def startTimer (tzdb : Tzdb) : M StartResult := do
  let config ← getConfig
  let timezone := timezoneOf config
  let currentSheet ←
    match ← getCurrentSheet with
    | some sheet => pure sheet
    | none => createNewTimeSheet tzdb (some timezone)
  let timerRunning ← isTimerRunning currentSheet
  if timerRunning then mThrow .timerAlreadyRunning
  else do
    let now := getDateInTimezone tzdb (← nowUtcM) (some timezone)
    let date := toISODate now
    let time := formatTime12Hour now
    appendRowM currentSheet [date, time]
    pure { sheet := currentSheet, date := date, start := time }

/-- `stopTimer` (timerService.ts:41-82). -/
def stopTimer (tzdb : Tzdb) (endTime : Option DateTime) : M StopResult := do
  let config ← getConfig
  let timezone := timezoneOf config
  match ← getCurrentSheet with
  | none => mThrow .noActiveTimer
  | some currentSheet =>
    match ← findActiveTimerRow currentSheet with
    | none => mThrow .noActiveTimer
    | some activeTimer => do
      let actualEndTime ← match endTime with
        | some e => pure e
        | none => nowUtcM
      let endTimeInTimezone := getDateInTimezone tzdb actualEndTime (some timezone)
      let endTimeString := formatTime12Hour endTimeInTimezone
      updateCellCM currentSheet activeTimer.2 endTimeString
      let startTime := activeTimer.1.getD 1 ""
      let duration := computeDuration startTime endTimeString
      pure { sheet := currentSheet, endTime := endTimeInTimezone, duration := duration }

/-! ## Run lemmas: unfolding engine computations on a given state -/

theorem bind_apply {α β : Type} (x : M α) (f : α → M β) (s : EngineState) :
    (x >>= f) s =
      match x s with
      | (.ok a, s2, ops) =>
        match f a s2 with
        | (r, s3, ops2) => (r, s3, ops ++ ops2)
      | (.error e, s2, ops) => (.error e, s2, ops) := rfl

theorem pure_apply {α : Type} (a : α) (s : EngineState) :
    (pure a : M α) s = (.ok a, s, []) := rfl

/-- Is the cached config snapshot present and younger than the TTL? -/
def cacheFresh (s : EngineState) : Bool :=
  match s.cache with
  | some (_, ts) => s.nowMs - ts < cacheTTL
  | none => false

/-- Store-assigned sheet ids are below the allocation counter (true of
every reachable document; worksheet ids are assigned by the store). -/
def Doc.wf (d : Doc) : Prop := ∀ w ∈ d.sheets, w.sid < d.nextId

/-- The document after `createConfigSheet`: a fresh Config worksheet
holding the default rows. -/
def docAddConfig (d : Doc) : Doc :=
  ⟨d.sheets ++ [⟨"Config", d.nextId, [["Hourly Rate", "100"], ["Timezone", "UTC"]]⟩],
   d.nextId + 1⟩

theorem cacheLookupM_apply (s : EngineState) :
    cacheLookupM s =
      (.ok (match s.cache with
            | some (cfg, ts) => if s.nowMs - ts < cacheTTL then some cfg else none
            | none => none), s, []) := rfl

theorem cacheFresh_true {s : EngineState} (h : cacheFresh s = true) :
    ∃ cfg ts, s.cache = some (cfg, ts) ∧ s.nowMs - ts < cacheTTL := by
  unfold cacheFresh at h
  rcases hc : s.cache with _ | ⟨cfg, ts⟩
  · rw [hc] at h; simp at h
  · rw [hc] at h; simp at h; exact ⟨cfg, ts, rfl, h⟩

theorem writeCells_config :
    writeCells [] 0 0
        [[CellData.str "Hourly Rate", CellData.num 100],
         [CellData.str "Timezone", CellData.str "UTC"]] =
      [["Hourly Rate", "100"], ["Timezone", "UTC"]] := rfl

/-- A map that rewrites only the sheet with the allocator's next id
leaves a well-formed document's sheets unchanged. -/
theorem map_sheets_next_id {d : Doc} (hwf : d.wf)
    (f : Worksheet → Worksheet) :
    d.sheets.map (fun w => if w.sid = d.nextId then f w else w) = d.sheets := by
  have h : ∀ w ∈ d.sheets, (fun w => if w.sid = d.nextId then f w else w) w = w := by
    intro w hw
    simp [Nat.ne_of_lt (hwf w hw)]
  exact (List.map_congr_left h).trans (List.map_id _)

/-- `createConfigSheet` on a document without a Config sheet: adds the
default-populated Config worksheet. -/
theorem createConfigSheet_run {s : EngineState} (hwf : s.doc.wf)
    (h : "Config" ∉ s.doc.titles) :
    createConfigSheet s =
      (.ok (), { s with doc := docAddConfig s.doc },
       [.createWorksheet "Config", .batchUpdate (configSheetRequests s.doc.nextId)]) := by
  show (createWorksheetM "Config" >>= fun cid => batchUpdateM (configSheetRequests cid)) s = _
  rw [bind_apply]
  unfold createWorksheetM
  have hmem : s.doc.titles.contains "Config" = false := by
    simp only [List.contains, List.elem_eq_mem, decide_eq_false_iff_not]
    exact h
  rw [hmem]
  simp only [Bool.false_eq_true, if_false]
  unfold batchUpdateM configSheetRequests
  simp only [List.foldl_cons, List.foldl_nil, applyRequest]
  have hmap :
      ((s.doc.sheets ++ [(⟨"Config", s.doc.nextId, []⟩ : Worksheet)]).map fun (w : Worksheet) =>
          if w.sid = s.doc.nextId then
            { w with grid := (writeCells w.grid 0 0
                [[CellData.str "Hourly Rate", CellData.num 100],
                 [CellData.str "Timezone", CellData.str "UTC"]]) }
          else w) =
        s.doc.sheets ++
          [(⟨"Config", s.doc.nextId, [["Hourly Rate", "100"], ["Timezone", "UTC"]]⟩ : Worksheet)] := by
    rw [List.map_append, map_sheets_next_id hwf]
    simp [writeCells_config]
  simp only [hmap]
  rfl

/-- `createConfigSheet` fails (and changes nothing) when a Config sheet
already exists. -/
theorem createConfigSheet_dup {s : EngineState} (h : "Config" ∈ s.doc.titles) :
    createConfigSheet s = (.error .storeError, s, [.createWorksheet "Config"]) := by
  show (createWorksheetM "Config" >>= fun cid => batchUpdateM (configSheetRequests cid)) s = _
  rw [bind_apply]
  unfold createWorksheetM
  have hmem : s.doc.titles.contains "Config" = true := by
    simp only [List.contains, List.elem_eq_mem, decide_eq_true_iff]
    exact h
  rw [hmem]
  simp

/-- A fresh cache entry short-circuits `getConfig`: the cached snapshot
is returned, the state is untouched and no store call is made. -/
theorem getConfig_cacheHit {s : EngineState} {cfg : ConfigMap} {ts : Int}
    (hc : s.cache = some (cfg, ts)) (hfresh : s.nowMs - ts < cacheTTL) :
    getConfig s = (.ok cfg, s, []) := by
  simp only [getConfig, bind_apply, cacheLookupM_apply, hc, if_pos hfresh, pure_apply,
    List.nil_append, List.append_nil]

theorem mAttempt_apply {α : Type} (x : M α) (s : EngineState) :
    mAttempt x s =
      match x s with
      | (.ok a, s2, ops) => (.ok (some a), s2, ops)
      | (.error _, s2, ops) => (.ok none, s2, ops) := rfl

theorem getWorksheetDataM_found {s : EngineState} {ws : String} {w : Worksheet}
    (h : findSheet s.doc ws = some w) (r : SheetRange) :
    getWorksheetDataM ws r s = (.ok (readRangeG w.grid r), s, [.getWorksheetData ws r]) := by
  unfold getWorksheetDataM
  rw [h]

theorem getWorksheetDataM_missing {s : EngineState} {ws : String}
    (h : findSheet s.doc ws = none) (r : SheetRange) :
    getWorksheetDataM ws r s = (.error .storeError, s, [.getWorksheetData ws r]) := by
  unfold getWorksheetDataM
  rw [h]

/-- A sheet found by title bears that title and is in the document. -/
theorem findSheet_mem {d : Doc} {t : String} {w : Worksheet}
    (h : findSheet d t = some w) : w ∈ d.sheets ∧ w.title = t := by
  unfold findSheet at h
  refine ⟨List.mem_of_find?_eq_some h, ?_⟩
  have := List.find?_some h
  simpa using this

/-- A title in the document is found. -/
theorem findSheet_isSome {d : Doc} {t : String} (h : t ∈ d.titles) :
    ∃ w, findSheet d t = some w := by
  unfold findSheet
  cases ho : d.sheets.find? (·.title == t) with
  | none =>
    exfalso
    rcases List.mem_map.mp h with ⟨w, hw, hti⟩
    have := List.find?_eq_none.mp ho w hw
    simp [hti] at this
  | some w' => exact ⟨w', rfl⟩

/-- On a cache miss with no Config worksheet, `getConfig` provisions
Config with the default rows, seeds the cache with the default snapshot
stamped `Date.now()`, and returns the defaults. -/
theorem getConfig_absent {s : EngineState} (hwf : s.doc.wf)
    (hmiss : cacheFresh s = false) (habs : findSheet s.doc "Config" = none) :
    getConfig s =
      (.ok defaultConfig,
       { s with doc := docAddConfig s.doc, cache := some (defaultConfig, s.nowMs) },
       [.getWorksheetData "Config" .a1b10, .createWorksheet "Config",
        .batchUpdate (configSheetRequests s.doc.nextId)]) := by
  have hnotin : "Config" ∉ s.doc.titles := by
    intro hmem
    rcases findSheet_isSome hmem with ⟨w, hw⟩
    rw [habs] at hw
    exact Option.noConfusion hw
  unfold cacheFresh at hmiss
  rcases hc : s.cache with _ | ⟨cfg, ts⟩ <;> rw [hc] at hmiss
  case none =>
    simp only [getConfig, bind_apply, cacheLookupM_apply, hc, mAttempt_apply,
      getWorksheetDataM_missing habs, createConfigSheet_run hwf hnotin,
      setCacheM, pure_apply, List.nil_append, List.append_nil, List.cons_append,
      List.singleton_append]
  case some =>
    simp only [decide_eq_false_iff_not] at hmiss
    simp only [getConfig, bind_apply, cacheLookupM_apply, hc, hmiss, if_false,
      mAttempt_apply, getWorksheetDataM_missing habs,
      createConfigSheet_run hwf hnotin, setCacheM, pure_apply, List.nil_append,
      List.append_nil, List.cons_append, List.singleton_append]

/-- On a cache miss with a Config worksheet whose `A1:B10` range is
empty, `getConfig` throws the `'Config sheet not found or is empty.'`
error without touching the state. -/
theorem getConfig_empty {s : EngineState} {w : Worksheet}
    (hmiss : cacheFresh s = false) (hcfg : findSheet s.doc "Config" = some w)
    (hempty : readRangeG w.grid .a1b10 = none) :
    getConfig s = (.error .configError, s, [.getWorksheetData "Config" .a1b10]) := by
  unfold cacheFresh at hmiss
  rcases hc : s.cache with _ | ⟨cfg, ts⟩ <;> rw [hc] at hmiss
  case none =>
    simp only [getConfig, bind_apply, cacheLookupM_apply, hc, mAttempt_apply,
      getWorksheetDataM_found hcfg, hempty, mThrow, List.nil_append,
      List.append_nil, List.cons_append, List.singleton_append]
  case some =>
    simp only [decide_eq_false_iff_not] at hmiss
    simp only [getConfig, bind_apply, cacheLookupM_apply, hc, hmiss, if_false,
      mAttempt_apply, getWorksheetDataM_found hcfg, hempty, mThrow, List.nil_append,
      List.append_nil, List.cons_append, List.singleton_append]

/-- On a cache miss with a Config worksheet whose `A1:B10` range has
data, `getConfig` folds the rows, caches the snapshot stamped
`Date.now()`, and returns it. -/
theorem getConfig_read {s : EngineState} {w : Worksheet} {rows : Grid}
    (hmiss : cacheFresh s = false) (hcfg : findSheet s.doc "Config" = some w)
    (hdata : readRangeG w.grid .a1b10 = some rows) :
    getConfig s =
      (.ok (foldConfig rows),
       { s with cache := some (foldConfig rows, s.nowMs) },
       [.getWorksheetData "Config" .a1b10]) := by
  unfold cacheFresh at hmiss
  rcases hc : s.cache with _ | ⟨cfg, ts⟩ <;> rw [hc] at hmiss
  case none =>
    simp only [getConfig, bind_apply, cacheLookupM_apply, hc, mAttempt_apply,
      getWorksheetDataM_found hcfg, hdata, setCacheM, pure_apply, List.nil_append,
      List.append_nil, List.cons_append, List.singleton_append]
  case some =>
    simp only [decide_eq_false_iff_not] at hmiss
    simp only [getConfig, bind_apply, cacheLookupM_apply, hc, hmiss, if_false,
      mAttempt_apply, getWorksheetDataM_found hcfg, hdata, setCacheM, pure_apply,
      List.nil_append, List.append_nil, List.cons_append, List.singleton_append]

/-! ## Characterizing the Segment Resolver -/

/-- The row-1 flag data the loop body of `getCurrentSheet` reads for a
candidate name. -/
def sheetFlagData (d : Doc) (n : String) : Option Grid :=
  match findSheet d n with
  | none => none
  | some w => readRangeG w.grid .a1

/-- The pure value `getCurrentSheet` resolves to: the first
descending-sorted date-pattern candidate whose row-1 flag is not the
closed sentinel. -/
def currentSheetPure (d : Doc) : Option String :=
  (sortDesc (d.titles.filter dateRegexTest)).find? fun n => flagIsOpen (sheetFlagData d n)

theorem charListLe_total : ∀ as bs : List Char,
    charListLe as bs = false → charListLe bs as = true := by
  intro as
  induction as with
  | nil => intro bs h; cases h
  | cons a as ih =>
    intro bs h
    cases bs with
    | nil => rfl
    | cons b bs =>
      unfold charListLe at h ⊢
      unfold charLt at h ⊢
      by_cases hab : a.toNat < b.toNat
      · simp [hab] at h
      · by_cases hba : b.toNat < a.toNat
        · simp [hba]
        · simp [hab, hba] at h ⊢
          exact ih bs h

theorem charListLe_trans : ∀ as bs cs : List Char,
    charListLe as bs = true → charListLe bs cs = true → charListLe as cs = true := by
  intro as
  induction as with
  | nil => intro bs cs _ _; rfl
  | cons a as ih =>
    intro bs cs h1 h2
    cases bs with
    | nil => cases h1
    | cons b bs =>
      cases cs with
      | nil => cases h2
      | cons c cs =>
        unfold charListLe at h1 h2 ⊢
        unfold charLt at h1 h2 ⊢
        by_cases hab : a.toNat < b.toNat <;> by_cases hbc : b.toNat < c.toNat <;>
          by_cases hba : b.toNat < a.toNat <;> by_cases hcb : c.toNat < b.toNat <;>
          simp only [hab, hbc, hba, hcb, decide_True, decide_False, if_true, if_false,
            Bool.false_eq_true] at h1 h2 ⊢ <;>
          first
          | rfl
          | omega
          | (have hac : a.toNat < c.toNat := by omega
             simp [hac])
          | (have hac : ¬a.toNat < c.toNat := by omega
             have hca : ¬c.toNat < a.toNat := by omega
             simp only [hac, hca, decide_False, Bool.false_eq_true, if_false]
             exact ih bs cs h1 h2)

theorem strLe_total {a b : String} (h : strLe a b = false) : strLe b a = true :=
  charListLe_total _ _ h

theorem strLe_trans {a b c : String} (h1 : strLe a b = true) (h2 : strLe b c = true) :
    strLe a c = true :=
  charListLe_trans _ _ _ h1 h2

theorem mem_insertDesc {x y : String} {l : List String} :
    x ∈ insertDesc y l ↔ x = y ∨ x ∈ l := by
  induction l with
  | nil => simp [insertDesc]
  | cons z zs ih =>
    cases h : strLe z y
    · simp only [insertDesc, h, Bool.false_eq_true, if_false, List.mem_cons, ih]
      tauto
    · simp [insertDesc, h]

theorem mem_sortDesc {x : String} {l : List String} : x ∈ sortDesc l ↔ x ∈ l := by
  induction l with
  | nil => simp [sortDesc]
  | cons z zs ih =>
    simp only [sortDesc, List.foldr_cons] at *
    rw [mem_insertDesc, ih]
    simp

theorem insertDesc_pairwise {x : String} {l : List String}
    (h : l.Pairwise (fun a b => strLe b a = true)) :
    (insertDesc x l).Pairwise (fun a b => strLe b a = true) := by
  induction l with
  | nil => simp [insertDesc]
  | cons y ys ih =>
    rcases List.pairwise_cons.mp h with ⟨hy, hys⟩
    cases hle : strLe y x
    · rw [insertDesc, hle]
      simp only [Bool.false_eq_true, if_false]
      refine List.pairwise_cons.mpr ⟨?_, ih hys⟩
      intro z hz
      rcases mem_insertDesc.mp hz with rfl | hz'
      · exact strLe_total hle
      · exact hy z hz'
    · rw [insertDesc, hle, if_pos rfl]
      refine List.pairwise_cons.mpr ⟨?_, h⟩
      intro z hz
      rcases List.mem_cons.mp hz with rfl | hz'
      · exact hle
      · exact strLe_trans (hy z hz') hle

/-- The comparator sort of `getCurrentSheet` yields a descending
(pairwise `≥`) list. -/
theorem sortDesc_pairwise (l : List String) :
    (sortDesc l).Pairwise (fun a b => strLe b a = true) := by
  induction l with
  | nil => simp [sortDesc]
  | cons z zs ih => exact insertDesc_pairwise ih

/-- Running the candidate loop: a pure `find?` over the flag data, no
mutations, no state change. -/
theorem getCurrentSheetLoop_run (l : List String) (s : EngineState)
    (h : ∀ n ∈ l, n ∈ s.doc.titles) :
    ∃ ops, getCurrentSheetLoop l s =
        (.ok (l.find? fun n => flagIsOpen (sheetFlagData s.doc n)), s, ops) ∧
      ∀ op ∈ ops, op.isMutation = false := by
  induction l with
  | nil => exact ⟨[], rfl, by simp⟩
  | cons n rest ih =>
    rcases findSheet_isSome (h n (List.mem_cons_self n rest)) with ⟨w, hw⟩
    have hflag : sheetFlagData s.doc n = readRangeG w.grid .a1 := by
      unfold sheetFlagData
      rw [hw]
    rcases ih (fun m hm => h m (List.mem_cons_of_mem n hm)) with ⟨ops, hops, hmut⟩
    by_cases hopen : flagIsOpen (sheetFlagData s.doc n) = true
    · refine ⟨[.getWorksheetData n .a1], ?_, ?_⟩
      · simp only [getCurrentSheetLoop, bind_apply, getWorksheetDataM_found hw, ← hflag,
          hopen, if_true, pure_apply, List.find?_cons, List.append_nil]
      · intro op hop
        simp only [List.mem_singleton] at hop
        subst hop
        rfl
    · have hopen' : flagIsOpen (sheetFlagData s.doc n) = false := by
        simpa using hopen
      refine ⟨.getWorksheetData n .a1 :: ops, ?_, ?_⟩
      · simp only [getCurrentSheetLoop, bind_apply, getWorksheetDataM_found hw, ← hflag,
          hopen', Bool.false_eq_true, if_false, hops, List.find?_cons,
          List.cons_append, List.nil_append]
      · intro op hop
        rcases List.mem_cons.mp hop with rfl | hop'
        · rfl
        · exact hmut op hop'

/-- Running `getCurrentSheet`: the pure resolution, read-only trace, no
state change. -/
theorem getCurrentSheet_run (s : EngineState) :
    ∃ ops, getCurrentSheet s = (.ok (currentSheetPure s.doc), s, ops) ∧
      ∀ op ∈ ops, op.isMutation = false := by
  have hsub : ∀ n ∈ sortDesc (s.doc.titles.filter dateRegexTest), n ∈ s.doc.titles :=
    fun n hn => List.mem_of_mem_filter (mem_sortDesc.mp hn)
  rcases getCurrentSheetLoop_run (sortDesc (s.doc.titles.filter dateRegexTest)) s hsub with
    ⟨ops, hrun, hmut⟩
  refine ⟨.getWorksheets :: ops, ?_, ?_⟩
  · simp only [getCurrentSheet, bind_apply, getWorksheetsM, hrun, currentSheetPure,
      List.cons_append, List.nil_append]
  · intro op hop
    rcases List.mem_cons.mp hop with rfl | hop'
    · rfl
    · exact hmut op hop'

/-! ## Characterizing the Timer State Machine readers -/

/-- Running `isTimerRunning` on an existing worksheet: the pure
derivation from the `A6:C` data, read-only, no state change. -/
theorem isTimerRunning_run {s : EngineState} {ws : String} {w : Worksheet}
    (hw : findSheet s.doc ws = some w) :
    isTimerRunning ws s =
      (.ok (isTimerRunningData (readRangeG w.grid .a6c)), s,
       [.getWorksheetData ws .a6c]) := by
  simp only [isTimerRunning, bind_apply, getWorksheetDataM_found hw, pure_apply,
    List.append_nil]

/-- Running `findActiveTimerRow` on an existing worksheet. -/
theorem findActiveTimerRow_run {s : EngineState} {ws : String} {w : Worksheet}
    (hw : findSheet s.doc ws = some w) :
    findActiveTimerRow ws s =
      (.ok (findActiveTimerRowData (readRangeG w.grid .a6c)), s,
       [.getWorksheetData ws .a6c]) := by
  simp only [findActiveTimerRow, bind_apply, getWorksheetDataM_found hw, pure_apply,
    List.append_nil]

/-! ## Characterizing the Segment Provisioner -/

/-- `ensureConfigSheetExists` when Config is already present: a single
listing call, no change. -/
theorem ensureConfigSheetExists_present {s : EngineState}
    (h : "Config" ∈ s.doc.titles) :
    ensureConfigSheetExists s = (.ok (), s, [.getWorksheets]) := by
  unfold ensureConfigSheetExists mCatch
  have hc : s.doc.titles.contains "Config" = true := by
    simp only [List.contains, List.elem_eq_mem, decide_eq_true_iff]
    exact h
  simp only [bind_apply, getWorksheetsM, hc, if_true, pure_apply, List.append_nil]

/-- `ensureConfigSheetExists` when Config is absent: provisions the
default Config worksheet. -/
theorem ensureConfigSheetExists_absent {s : EngineState} (hwf : s.doc.wf)
    (h : "Config" ∉ s.doc.titles) :
    ensureConfigSheetExists s =
      (.ok (), { s with doc := docAddConfig s.doc },
       [.getWorksheets, .createWorksheet "Config",
        .batchUpdate (configSheetRequests s.doc.nextId)]) := by
  unfold ensureConfigSheetExists mCatch
  have hc : s.doc.titles.contains "Config" = false := by
    simp only [List.contains, List.elem_eq_mem, decide_eq_false_iff_not]
    exact h
  simp only [bind_apply, getWorksheetsM, hc, Bool.false_eq_true, if_false,
    createConfigSheet_run hwf h, List.cons_append, List.nil_append]

/-- After `ensureConfigSheetExists`, the Config worksheet exists; the
call never fails, only ever adds a Config worksheet, and issues no
row-level mutation.  General form used by the provisioner proofs. -/
theorem ensureConfigSheetExists_spec (s : EngineState) (hwf : s.doc.wf) :
    ∃ ops, ensureConfigSheetExists s =
        (.ok (), { s with doc := if "Config" ∈ s.doc.titles then s.doc else docAddConfig s.doc },
         ops) ∧
      ∀ op ∈ ops, op.isRowMutation = false := by
  by_cases h : "Config" ∈ s.doc.titles
  · refine ⟨[.getWorksheets], ?_, ?_⟩
    · rw [ensureConfigSheetExists_present h, if_pos h]
    · intro op hop
      simp only [List.mem_singleton] at hop
      subst hop
      rfl
  · refine ⟨[.getWorksheets, .createWorksheet "Config",
      .batchUpdate (configSheetRequests s.doc.nextId)], ?_, ?_⟩
    · rw [ensureConfigSheetExists_absent hwf h, if_neg h]
    · intro op hop
      rcases List.mem_cons.mp hop with rfl | hop'
      · rfl
      rcases List.mem_cons.mp hop' with rfl | hop''
      · rfl
      simp only [List.mem_singleton] at hop''
      subst hop''
      rfl

theorem docAddConfig_wf {d : Doc} (h : d.wf) : (docAddConfig d).wf := by
  intro w hw
  unfold docAddConfig at hw ⊢
  rcases List.mem_append.mp hw with hl | hr
  · exact Nat.lt_succ_of_lt (h w hl)
  · simp only [List.mem_singleton] at hr
    subst hr
    exact Nat.lt_succ_self _

theorem docAddConfig_titles (d : Doc) :
    (docAddConfig d).titles = d.titles ++ ["Config"] := by
  unfold docAddConfig Doc.titles
  simp

theorem str_length_append (a b : String) : (a ++ b).length = a.length + b.length := by
  cases a with
  | mk la =>
    cases b with
    | mk lb => exact List.length_append la lb

theorem str_length_mk (l : List Char) : (String.mk l).length = l.length := rfl

theorem length_pad4 (n : Nat) : 4 ≤ (pad4 n).length := by
  unfold pad4
  by_cases h : 4 ≤ (natToString n).length
  · simp only [h, if_true]
  · simp only [h, if_false, str_length_append, str_length_mk, List.length_replicate]
    omega

theorem length_pad2 (n : Nat) : 2 ≤ (pad2 n).length := by
  unfold pad2 padStart2
  by_cases h : 2 ≤ (natToString n).length
  · simp only [h, if_true]
  · simp only [h, if_false, str_length_append, str_length_mk, List.length_replicate]
    omega

theorem length_toISODate (d : DateTime) : 10 ≤ (toISODate d).length := by
  unfold toISODate
  simp only [str_length_append]
  have h4 := length_pad4 d.year
  have h2 := length_pad2 d.month
  have h2' := length_pad2 d.day
  have : ("-" : String).length = 1 := rfl
  omega

theorem toISODate_ne_empty (d : DateTime) : toISODate d ≠ "" := by
  intro h
  have := length_toISODate d
  rw [h] at this
  simp [String.length] at this

theorem toISODate_ne_config (d : DateTime) : toISODate d ≠ "Config" := by
  intro h
  have := length_toISODate d
  rw [h] at this
  simp [String.length] at this

/-- The grid a fresh period worksheet holds after the batched layout
mutation: empty row 1 (checkbox only), summary rows 2-3, empty row 4,
headers at row 5, seed formulas at row 6 columns D-E. -/
def newSheetLayoutGrid : Grid :=
  [[],
   ["Total Hours:", "=SUM(D6:D)"],
   ["Total Billable:", "=SUM(E6:E)"],
   [],
   ["Date", "Start", "End", "Total Time", "Billable Amount"],
   ["", "", "", "=IF(C6<>\"\", C6-B6, \"\")", "=IF(D6<>\"\", D6*24*Config!$B$1, \"\")"]]

/-- Applying an `updateCells` request addressed to the newest sheet of
a document rewrites that sheet's grid only. -/
theorem applyRequest_updateCells_last {d1 : Doc} (hwf : d1.wf)
    (name : String) (g : Grid) (r0 c0 : Nat) (rows : List (List CellData)) :
    applyRequest ⟨d1.sheets ++ [⟨name, d1.nextId, g⟩], d1.nextId + 1⟩
        (.updateCells d1.nextId r0 c0 rows) =
      ⟨d1.sheets ++ [⟨name, d1.nextId, writeCells g r0 c0 rows⟩], d1.nextId + 1⟩ := by
  unfold applyRequest
  simp only [List.map_append]
  congr 1
  congr 1
  · have h : ∀ w ∈ d1.sheets,
        (fun (w : Worksheet) => if w.sid = d1.nextId then
          { w with grid := writeCells w.grid r0 c0 rows } else w) w = w := by
      intro w hw
      simp [Nat.ne_of_lt (hwf w hw)]
    exact (List.map_congr_left h).trans (List.map_id _)
  · simp

/-- Applying the period-sheet layout batch to a document whose newest
sheet is the freshly created empty period sheet. -/
theorem batch_newSheet {d1 : Doc} (hwf : d1.wf) (name : String) :
    (createNewTimeSheetRequests d1.nextId).foldl applyRequest
        ⟨d1.sheets ++ [⟨name, d1.nextId, []⟩], d1.nextId + 1⟩ =
      ⟨d1.sheets ++ [⟨name, d1.nextId, newSheetLayoutGrid⟩], d1.nextId + 1⟩ := by
  unfold createNewTimeSheetRequests
  simp only [List.foldl_cons, List.foldl_nil]
  rw [show ∀ d r0 c0, applyRequest d (SheetRequest.checkboxValidation d1.nextId r0 c0) = d
        from fun _ _ _ => rfl]
  rw [applyRequest_updateCells_last hwf]
  rw [show ∀ d a b c, applyRequest d (SheetRequest.setColumnWidths d1.nextId a b c) = d
        from fun _ _ _ _ => rfl]
  rw [show ∀ d a b f, applyRequest d (SheetRequest.formatCells d1.nextId a b f) = d
        from fun _ _ _ _ => rfl]
  rw [applyRequest_updateCells_last hwf]
  rw [show ∀ d a b f, applyRequest d (SheetRequest.formatCells d1.nextId a b f) = d
        from fun _ _ _ _ => rfl]
  rw [show ∀ d a b f, applyRequest d (SheetRequest.formatCells d1.nextId a b f) = d
        from fun _ _ _ _ => rfl]
  rw [show ∀ d a b f, applyRequest d (SheetRequest.formatCells d1.nextId a b f) = d
        from fun _ _ _ _ => rfl]
  rw [applyRequest_updateCells_last hwf]
  rfl

/-- The document `createNewTimeSheet` leaves behind on success: Config
ensured, plus the new period worksheet with the layout grid. -/
def docAfterCreate (d : Doc) (name : String) : Doc :=
  let d1 := if "Config" ∈ d.titles then d else docAddConfig d
  ⟨d1.sheets ++ [⟨name, d1.nextId, newSheetLayoutGrid⟩], d1.nextId + 1⟩

/-- Running `createNewTimeSheet` when no worksheet bears today's
(timezone-adjusted) date as title: Config is ensured first, the period
worksheet is created and laid out by one batched mutation, and its name
is returned. -/
theorem createNewTimeSheet_run {s : EngineState} (tzdb : Tzdb) (tz : Option String)
    (hwf : s.doc.wf)
    (hnew : toISODate (getDateInTimezone tzdb s.nowUtc tz) ∉ s.doc.titles) :
    ∃ ops0,
      createNewTimeSheet tzdb tz s =
        (.ok (toISODate (getDateInTimezone tzdb s.nowUtc tz)),
         { s with doc := docAfterCreate s.doc (toISODate (getDateInTimezone tzdb s.nowUtc tz)) },
         ops0 ++ [.createWorksheet (toISODate (getDateInTimezone tzdb s.nowUtc tz)),
                  .batchUpdate (createNewTimeSheetRequests
                    (if "Config" ∈ s.doc.titles then s.doc.nextId else s.doc.nextId + 1))]) ∧
      ∀ op ∈ ops0, op = .getWorksheets ∨ op = .createWorksheet "Config" ∨
        ∃ cid, op = .batchUpdate (configSheetRequests cid) := by
  set name := toISODate (getDateInTimezone tzdb s.nowUtc tz) with hname
  by_cases hcfg : "Config" ∈ s.doc.titles
  case pos =>
    have hcontains : (s.doc.titles.contains name) = false := by
      simp only [List.contains, List.elem_eq_mem, decide_eq_false_iff_not]
      exact hnew
    refine ⟨[.getWorksheets], ?_, ?_⟩
    · simp only [createNewTimeSheet, bind_apply, nowUtcM, ← hname,
        if_neg (toISODate_ne_empty _), ensureConfigSheetExists_present hcfg,
        createWorksheetM, hcontains, Bool.false_eq_true, if_false,
        batchUpdateM, batch_newSheet hwf, pure_apply, docAfterCreate, if_pos hcfg,
        List.cons_append, List.nil_append, List.append_nil]
    · intro op hop
      simp only [List.mem_singleton] at hop
      subst hop
      exact Or.inl rfl
  case neg =>
    have hnew1 : name ∉ (docAddConfig s.doc).titles := by
      rw [docAddConfig_titles]
      intro hmem
      rcases List.mem_append.mp hmem with hl | hr
      · exact hnew hl
      · simp only [List.mem_singleton] at hr
        exact toISODate_ne_config _ hr
    have hcontains : ((docAddConfig s.doc).titles.contains name) = false := by
      simp only [List.contains, List.elem_eq_mem, decide_eq_false_iff_not]
      exact hnew1
    refine ⟨[.getWorksheets, .createWorksheet "Config",
             .batchUpdate (configSheetRequests s.doc.nextId)], ?_, ?_⟩
    · simp only [createNewTimeSheet, bind_apply, nowUtcM, ← hname,
        if_neg (toISODate_ne_empty _), ensureConfigSheetExists_absent hwf hcfg,
        createWorksheetM, hcontains, Bool.false_eq_true, if_false,
        batchUpdateM, batch_newSheet (docAddConfig_wf hwf), pure_apply,
        docAfterCreate, if_neg hcfg, List.cons_append, List.nil_append, List.append_nil]
      rfl
    · intro op hop
      rcases List.mem_cons.mp hop with rfl | hop'
      · exact Or.inl rfl
      rcases List.mem_cons.mp hop' with rfl | hop''
      · exact Or.inr (Or.inl rfl)
      simp only [List.mem_singleton] at hop''
      subst hop''
      exact Or.inr (Or.inr ⟨s.doc.nextId, rfl⟩)

/-! ## Characterizing the ledger mutations -/

/-- The document after `appendRow` on a worksheet title. -/
def docAppendRow (d : Doc) (ws : String) (row : List String) : Doc :=
  { d with sheets := d.sheets.map fun w =>
      if w.title = ws then { w with grid := w.grid ++ [row] } else w }

/-- The document after `updateCell` on cell `C<rowNum>` of a worksheet
title. -/
def docUpdateCellC (d : Doc) (ws : String) (rowNum : Nat) (v : String) : Doc :=
  { d with sheets := d.sheets.map fun w =>
      if w.title = ws then { w with grid := setCell w.grid (rowNum - 1) 2 v } else w }

theorem appendRowM_run {s : EngineState} {ws : String} {w : Worksheet}
    (hw : findSheet s.doc ws = some w) (row : List String) :
    appendRowM ws row s =
      (.ok (), { s with doc := docAppendRow s.doc ws row }, [.appendRow ws row]) := by
  unfold appendRowM
  rw [hw]
  rfl

theorem updateCellCM_run {s : EngineState} {ws : String} {w : Worksheet}
    (hw : findSheet s.doc ws = some w) (rowNum : Nat) (v : String) :
    updateCellCM ws rowNum v s =
      (.ok (), { s with doc := docUpdateCellC s.doc ws rowNum v },
       [.updateCell ws ("C" ++ natToString rowNum) v]) := by
  unfold updateCellCM
  rw [hw]
  rfl

/-- A resolved current segment is a date-pattern title of the document
whose row-1 flag is open. -/
theorem currentSheetPure_mem {d : Doc} {cs : String}
    (h : currentSheetPure d = some cs) :
    cs ∈ d.titles ∧ dateRegexTest cs = true ∧ flagIsOpen (sheetFlagData d cs) = true := by
  unfold currentSheetPure at h
  have hmem := List.mem_of_find?_eq_some h
  have hopen := List.find?_some h
  rw [mem_sortDesc] at hmem
  exact ⟨List.mem_of_mem_filter hmem, List.of_mem_filter hmem, hopen⟩

/-! ## Characterizing `stopTimer` -/

/-- `stopTimer` when no current segment resolves (after a successful
config step): the `NoActiveTimer` failure, with only reads after the
config step. -/
theorem stopTimer_run_none {s s1 : EngineState} {cfg : ConfigMap} {ops1 : List StoreOp}
    (tzdb : Tzdb) (endT : Option DateTime)
    (hc : getConfig s = (.ok cfg, s1, ops1))
    (hcs : currentSheetPure s1.doc = none) :
    ∃ ops2, stopTimer tzdb endT s = (.error .noActiveTimer, s1, ops1 ++ ops2) ∧
      ∀ op ∈ ops2, op.isMutation = false := by
  rcases getCurrentSheet_run s1 with ⟨opsc, hrun, hmutc⟩
  refine ⟨opsc, ?_, hmutc⟩
  simp only [stopTimer, bind_apply, hc, hrun, hcs, mThrow, List.append_nil]

/-- `stopTimer` when the current segment's last data region row is not
open: the `NoActiveTimer` failure, with only reads after the config
step. -/
theorem stopTimer_run_closed {s s1 : EngineState} {cfg : ConfigMap} {ops1 : List StoreOp}
    {cs : String} {w : Worksheet}
    (tzdb : Tzdb) (endT : Option DateTime)
    (hc : getConfig s = (.ok cfg, s1, ops1))
    (hcs : currentSheetPure s1.doc = some cs)
    (hw : findSheet s1.doc cs = some w)
    (hrow : findActiveTimerRowData (readRangeG w.grid .a6c) = none) :
    ∃ ops2, stopTimer tzdb endT s = (.error .noActiveTimer, s1, ops1 ++ ops2) ∧
      ∀ op ∈ ops2, op.isMutation = false := by
  rcases getCurrentSheet_run s1 with ⟨opsc, hrun, hmutc⟩
  refine ⟨opsc ++ [.getWorksheetData cs .a6c], ?_, ?_⟩
  · simp only [stopTimer, bind_apply, hc, hrun, hcs, findActiveTimerRow_run hw, hrow,
      mThrow, List.append_nil, List.append_assoc]
  · intro op hop
    rcases List.mem_append.mp hop with hop' | hop'
    · exact hmutc op hop'
    · simp only [List.mem_singleton] at hop'
      subst hop'
      rfl

/-- `stopTimer` on an open row: writes the formatted end time into
column C of that row, and returns the segment, the timezone-adjusted
end instant, and the duration computed from the stored start string and
the end string. -/
theorem stopTimer_run_ok {s s1 : EngineState} {cfg : ConfigMap} {ops1 : List StoreOp}
    {cs : String} {w : Worksheet} {row : List String} {idx : Nat}
    (tzdb : Tzdb) (endT : Option DateTime)
    (hc : getConfig s = (.ok cfg, s1, ops1))
    (hcs : currentSheetPure s1.doc = some cs)
    (hw : findSheet s1.doc cs = some w)
    (hrow : findActiveTimerRowData (readRangeG w.grid .a6c) = some (row, idx)) :
    ∃ ops2, stopTimer tzdb endT s =
        (.ok { sheet := cs,
               endTime := getDateInTimezone tzdb (endT.getD s1.nowUtc) (some (timezoneOf cfg)),
               duration := computeDuration (row.getD 1 "")
                 (formatTime12Hour
                   (getDateInTimezone tzdb (endT.getD s1.nowUtc) (some (timezoneOf cfg)))) },
         { s1 with doc := (docUpdateCellC s1.doc cs idx
             (formatTime12Hour
               (getDateInTimezone tzdb (endT.getD s1.nowUtc) (some (timezoneOf cfg))))) },
         ops1 ++ ops2) ∧
      (.updateCell cs ("C" ++ natToString idx)
        (formatTime12Hour
          (getDateInTimezone tzdb (endT.getD s1.nowUtc) (some (timezoneOf cfg)))) ∈ ops2) := by
  rcases getCurrentSheet_run s1 with ⟨opsc, hrun, hmutc⟩
  refine ⟨opsc ++ [.getWorksheetData cs .a6c,
    .updateCell cs ("C" ++ natToString idx)
      (formatTime12Hour (getDateInTimezone tzdb (endT.getD s1.nowUtc) (some (timezoneOf cfg))))],
    ?_, by simp⟩
  cases endT with
  | none =>
    simp only [stopTimer, bind_apply, hc, hrun, hcs, findActiveTimerRow_run hw, hrow,
      nowUtcM, updateCellCM_run hw, pure_apply, Option.getD,
      List.append_nil, List.append_assoc, List.cons_append, List.nil_append]
  | some e =>
    simp only [stopTimer, bind_apply, hc, hrun, hcs, findActiveTimerRow_run hw, hrow,
      pure_apply, updateCellCM_run hw, Option.getD,
      List.append_nil, List.append_assoc, List.cons_append, List.nil_append]

/-- On any cache miss (no snapshot, or one at least the TTL old) the
first store call `getConfig` makes is a fresh read of `Config!A1:B10`,
regardless of how the rest of the call goes. -/
theorem getConfig_missTrace (s : EngineState) (h : cacheFresh s = false) :
    ∃ rest, (getConfig s).2.2 = .getWorksheetData "Config" .a1b10 :: rest := by
  unfold cacheFresh at h
  have hstep : ∀ s2 : EngineState, ∃ rest,
      ((mAttempt (getWorksheetDataM "Config" .a1b10) >>= fun data =>
        match data with
        | none => do
          createConfigSheet
          setCacheM defaultConfig
          pure defaultConfig
        | some data =>
          match data with
          | none => mThrow .configError
          | some rows => do
            setCacheM (foldConfig rows)
            pure (foldConfig rows) : M ConfigMap) s2).2.2 =
      .getWorksheetData "Config" .a1b10 :: rest := by
    intro s2
    rcases hF : findSheet s2.doc "Config" with _ | w
    · rcases hcc : createConfigSheet s2 with ⟨rc, sc, opsc⟩
      cases rc with
      | error e =>
        refine ⟨opsc, ?_⟩
        simp only [bind_apply, mAttempt_apply, getWorksheetDataM_missing hF, hcc,
          List.cons_append, List.nil_append, List.append_nil]
      | ok u =>
        refine ⟨opsc ++ [], ?_⟩
        simp only [bind_apply, mAttempt_apply, getWorksheetDataM_missing hF, hcc,
          setCacheM, pure_apply, List.cons_append, List.nil_append, List.append_nil]
    · rcases hr : readRangeG w.grid .a1b10 with _ | rows
      · refine ⟨[], ?_⟩
        simp only [bind_apply, mAttempt_apply, getWorksheetDataM_found hF, hr, mThrow,
          List.cons_append, List.nil_append, List.append_nil]
      · refine ⟨[], ?_⟩
        simp only [bind_apply, mAttempt_apply, getWorksheetDataM_found hF, hr,
          setCacheM, pure_apply, List.cons_append, List.nil_append, List.append_nil]
  rcases hc : s.cache with _ | ⟨cfg, ts⟩ <;> rw [hc] at h
  · rcases hstep s with ⟨rest, hrest⟩
    refine ⟨rest, ?_⟩
    simp only [getConfig, bind_apply, cacheLookupM_apply, hc] at *
    simpa using hrest
  · simp only [decide_eq_false_iff_not] at h
    rcases hstep s with ⟨rest, hrest⟩
    refine ⟨rest, ?_⟩
    simp only [getConfig, bind_apply, cacheLookupM_apply, hc, h, if_false] at *
    simpa using hrest

/-! ## Witness fixtures: concrete states used to instantiate the claim
theorems -/

/-- A timezone database with no zones: every conversion raises. -/
def tzdbEmpty : Tzdb := fun _ _ => none

/-- A populated Config worksheet. -/
def configSheetW : Worksheet := ⟨"Config", 0, [["Hourly Rate", "100"], ["Timezone", "UTC"]]⟩

/-- A layout-conforming period worksheet with one open row at sheet
row 6 (start recorded, end empty). -/
def openPeriodSheet : Worksheet :=
  ⟨"2024-05-01", 1,
   [[], ["Total Hours:", "=SUM(D6:D)"], ["Total Billable:", "=SUM(E6:E)"], [],
    ["Date", "Start", "End", "Total Time", "Billable Amount"],
    ["2024-05-01", "9:00:00 AM"]]⟩

/-- Config present and populated, one open period segment, cold cache. -/
def stOpen : EngineState :=
  ⟨⟨[configSheetW, openPeriodSheet], 2⟩, none, 1000, ⟨2024, 5, 1, 10, 15, 30⟩⟩

/-! ## The claims -/

/-- **C9.**  For every date and timezone name: when the name is invalid
or unsupported (the conversion raises, `tzdb t d = none`) the timezone
application returns the original instant unchanged; when the timezone is
absent, JS-falsy empty, or `"UTC"` it also returns the original
instant. -/
theorem getDateInTimezone_fallback (tzdb : Tzdb) (d : DateTime) :
    (∀ t, tzdb t d = none → getDateInTimezone tzdb d (some t) = d) ∧
    getDateInTimezone tzdb d none = d ∧
    getDateInTimezone tzdb d (some "") = d ∧
    getDateInTimezone tzdb d (some "UTC") = d := by
  refine ⟨?_, rfl, by simp [getDateInTimezone], by simp [getDateInTimezone]⟩
  intro t ht
  by_cases h : t = "" ∨ t = "UTC"
  · simp [getDateInTimezone, h]
  · simp [getDateInTimezone, h, ht]

/-- Witness for C9 at a concrete invalid timezone name and instant. -/
theorem getDateInTimezone_fallback_witness :
    getDateInTimezone tzdbEmpty ⟨2024, 5, 1, 10, 0, 0⟩ (some "Not/AZone") =
      ⟨2024, 5, 1, 10, 0, 0⟩ :=
  (getDateInTimezone_fallback tzdbEmpty ⟨2024, 5, 1, 10, 0, 0⟩).1 "Not/AZone" rfl

/-- **C6.**  For every document state: a cached snapshot strictly
younger than 300 seconds is returned as-is — same snapshot value,
unchanged state, empty store trace (no read); with no snapshot, or a
snapshot at least 300 seconds old, the call's first store operation is a
fresh read of `Config!A1:B10`. -/
theorem getConfig_ttl_caching (s : EngineState) (cfg : ConfigMap) (ts : Int) :
    (s.cache = some (cfg, ts) → s.nowMs - ts < cacheTTL →
      getConfig s = (.ok cfg, s, [])) ∧
    (s.cache = none ∨ (s.cache = some (cfg, ts) ∧ cacheTTL ≤ s.nowMs - ts) →
      ∃ rest, (getConfig s).2.2 = .getWorksheetData "Config" .a1b10 :: rest) := by
  constructor
  · exact fun h1 h2 => getConfig_cacheHit h1 h2
  · intro h
    apply getConfig_missTrace
    unfold cacheFresh
    rcases h with h | ⟨h1, h2⟩
    · rw [h]
    · rw [h1]
      simp only [decide_eq_false_iff_not]
      omega

/-- Witness for C6: a fresh snapshot (age 100ms < 300s) is served with
an empty trace; a stale snapshot (age 400000ms ≥ 300s) triggers a fresh
`Config!A1:B10` read. -/
theorem getConfig_ttl_caching_witness :
    getConfig ⟨⟨[configSheetW], 1⟩, some ([("Timezone", "UTC")], 900), 1000, ⟨2024, 5, 1, 0, 0, 0⟩⟩ =
      (.ok [("Timezone", "UTC")],
       ⟨⟨[configSheetW], 1⟩, some ([("Timezone", "UTC")], 900), 1000, ⟨2024, 5, 1, 0, 0, 0⟩⟩, []) ∧
    ∃ rest,
      (getConfig ⟨⟨[configSheetW], 1⟩, some ([("Timezone", "UTC")], 900), 401000, ⟨2024, 5, 1, 0, 0, 0⟩⟩).2.2 =
        .getWorksheetData "Config" .a1b10 :: rest :=
  ⟨(getConfig_ttl_caching _ [("Timezone", "UTC")] 900).1 rfl (by decide),
   (getConfig_ttl_caching _ [("Timezone", "UTC")] 900).2 (Or.inr ⟨rfl, by decide⟩)⟩

/-- The fold of `getConfig` skips exactly the rows missing either
column: folding all rows equals folding only the kept rows. -/
theorem foldConfig_filter (rows : Grid) :
    foldConfig rows =
      foldConfig (rows.filter fun r => (r.getD 0 "" != "") && (r.getD 1 "" != "")) := by
  unfold foldConfig
  suffices h : ∀ acc : ConfigMap,
      rows.foldl (fun acc row =>
        if row.getD 0 "" ≠ "" ∧ row.getD 1 "" ≠ "" then
          cfgInsert acc (row.getD 0 "") (row.getD 1 "") else acc) acc =
      (rows.filter fun r => (r.getD 0 "" != "") && (r.getD 1 "" != "")).foldl
        (fun acc row =>
          if row.getD 0 "" ≠ "" ∧ row.getD 1 "" ≠ "" then
            cfgInsert acc (row.getD 0 "") (row.getD 1 "") else acc) acc from h []
  induction rows with
  | nil => intro acc; rfl
  | cons r rs ih =>
    intro acc
    by_cases hk : r.getD 0 "" ≠ "" ∧ r.getD 1 "" ≠ ""
    · have hkb : ((r.getD 0 "" != "") && (r.getD 1 "" != "")) = true := by
        simp only [Bool.and_eq_true, bne_iff_ne, ne_eq]
        exact hk
      simp only [List.foldl_cons, List.filter_cons, hkb, if_pos hk, if_true]
      exact ih _
    · have hkb : ((r.getD 0 "" != "") && (r.getD 1 "" != "")) = false := by
        cases hb : ((r.getD 0 "" != "") && (r.getD 1 "" != ""))
        · rfl
        · exfalso
          apply hk
          simpa [Bool.and_eq_true, bne_iff_ne] using hb
      simp only [List.foldl_cons, List.filter_cons, hkb, if_neg hk, Bool.false_eq_true,
        if_false]
      exact ih _

/-- **C7.**  On a cache miss: (1) if the Config segment is absent (the
range read throws), `getConfig` provisions Config with the default rows
`Hourly Rate=100`, `Timezone=UTC`, seeds the cache with the default
snapshot, and returns it; (2) if the segment exists but its `A1:B10`
range is empty, it fails with the config-not-found error rather than
defaulting; (3) on a successful non-empty read it folds the rows into a
mapping — skipping every row missing either column — caches it, and
returns it. -/
theorem getConfig_miss_behaviour (s : EngineState) (hwf : s.doc.wf)
    (hmiss : cacheFresh s = false) :
    (findSheet s.doc "Config" = none →
      getConfig s =
        (.ok defaultConfig,
         { s with doc := docAddConfig s.doc, cache := some (defaultConfig, s.nowMs) },
         [.getWorksheetData "Config" .a1b10, .createWorksheet "Config",
          .batchUpdate (configSheetRequests s.doc.nextId)]) ∧
      defaultConfig = [("Hourly Rate", "100"), ("Timezone", "UTC")] ∧
      (docAddConfig s.doc).sheets.getLast? =
        some ⟨"Config", s.doc.nextId, [["Hourly Rate", "100"], ["Timezone", "UTC"]]⟩) ∧
    (∀ w, findSheet s.doc "Config" = some w → readRangeG w.grid .a1b10 = none →
      getConfig s = (.error .configError, s, [.getWorksheetData "Config" .a1b10])) ∧
    (∀ w rows, findSheet s.doc "Config" = some w → readRangeG w.grid .a1b10 = some rows →
      getConfig s =
        (.ok (foldConfig rows), { s with cache := some (foldConfig rows, s.nowMs) },
         [.getWorksheetData "Config" .a1b10]) ∧
      foldConfig rows =
        foldConfig (rows.filter fun r => (r.getD 0 "" != "") && (r.getD 1 "" != ""))) := by
  refine ⟨?_, ?_, ?_⟩
  · intro habs
    refine ⟨getConfig_absent hwf hmiss habs, rfl, ?_⟩
    unfold docAddConfig
    simp
  · intro w hcfg hempty
    exact getConfig_empty hmiss hcfg hempty
  · intro w rows hcfg hdata
    exact ⟨getConfig_read hmiss hcfg hdata, foldConfig_filter rows⟩

/-- Witness for C7: the three branches at concrete states — a document
with no Config sheet, one with an empty Config sheet, and one with the
populated Config sheet. -/
theorem getConfig_miss_behaviour_witness :
    getConfig ⟨⟨[], 0⟩, none, 1000, ⟨2024, 5, 1, 0, 0, 0⟩⟩ =
      (.ok defaultConfig,
       ⟨⟨[⟨"Config", 0, [["Hourly Rate", "100"], ["Timezone", "UTC"]]⟩], 1⟩,
        some (defaultConfig, 1000), 1000, ⟨2024, 5, 1, 0, 0, 0⟩⟩,
       [.getWorksheetData "Config" .a1b10, .createWorksheet "Config",
        .batchUpdate (configSheetRequests 0)]) ∧
    getConfig ⟨⟨[⟨"Config", 0, []⟩], 1⟩, none, 1000, ⟨2024, 5, 1, 0, 0, 0⟩⟩ =
      (.error .configError, ⟨⟨[⟨"Config", 0, []⟩], 1⟩, none, 1000, ⟨2024, 5, 1, 0, 0, 0⟩⟩,
       [.getWorksheetData "Config" .a1b10]) ∧
    getConfig ⟨⟨[configSheetW], 1⟩, none, 1000, ⟨2024, 5, 1, 0, 0, 0⟩⟩ =
      (.ok (foldConfig [["Hourly Rate", "100"], ["Timezone", "UTC"]]),
       ⟨⟨[configSheetW], 1⟩,
        some (foldConfig [["Hourly Rate", "100"], ["Timezone", "UTC"]], 1000), 1000,
        ⟨2024, 5, 1, 0, 0, 0⟩⟩,
       [.getWorksheetData "Config" .a1b10]) :=
  ⟨((getConfig_miss_behaviour ⟨⟨[], 0⟩, none, 1000, ⟨2024, 5, 1, 0, 0, 0⟩⟩
      (by intro w hw; simp at hw) (by decide)).1 rfl).1,
   (getConfig_miss_behaviour ⟨⟨[⟨"Config", 0, []⟩], 1⟩, none, 1000, ⟨2024, 5, 1, 0, 0, 0⟩⟩
      (by intro w hw; simp only [List.mem_singleton] at hw; subst hw; decide)
      (by decide)).2.1
     ⟨"Config", 0, []⟩ rfl rfl,
   ((getConfig_miss_behaviour ⟨⟨[configSheetW], 1⟩, none, 1000, ⟨2024, 5, 1, 0, 0, 0⟩⟩
      (by intro w hw; simp only [List.mem_singleton] at hw; subst hw; decide)
      (by decide)).2.2
     configSheetW [["Hourly Rate", "100"], ["Timezone", "UTC"]] rfl (by decide)).1⟩

/-- A range read never reports an empty row list as present. -/
theorem readRangeG_some_ne_nil {g : Grid} {r : SheetRange} {rows : Grid}
    (h : readRangeG g r = some rows) : rows ≠ [] := by
  unfold readRangeG at h
  cases r <;>
  · simp only at h
    split at h
    next => exact Option.noConfusion h
    next hcond =>
      simp only [Option.some_inj] at h
      subst h
      intro hnil
      apply hcond
      rw [hnil]
      rfl

/-- **C3.**  The derived timer state looks only at the last `A6:C` data
row: running exactly when that row has a non-empty Start and an empty
End; idle when the data region is empty; `findActiveTimerRow` only ever
returns the last row (at sheet row `length-1+6`), so an open row
anywhere earlier than the last neither makes `isTimerRunning` true nor
is ever returned; and two data regions with the same last row derive
the same running state. -/
theorem timer_state_from_last_row (s : EngineState) (ws : String) (w : Worksheet)
    (hw : findSheet s.doc ws = some w) :
    (isTimerRunning ws s).1 = .ok (isTimerRunningData (readRangeG w.grid .a6c)) ∧
    (readRangeG w.grid .a6c = none → (isTimerRunning ws s).1 = .ok false) ∧
    (∀ rows, readRangeG w.grid .a6c = some rows →
      ((isTimerRunning ws s).1 = .ok true ↔
        rowHasStart (rows.getLastD []) = true ∧ rowHasEnd (rows.getLastD []) = false)) ∧
    (∀ rows pr, readRangeG w.grid .a6c = some rows →
      (findActiveTimerRow ws s).1 = .ok (some pr) →
      pr.2 = rows.length - 1 + 6 ∧ pr.1 = rows.getLastD []) ∧
    (∀ rows₁ rows₂ : Grid, rows₁ ≠ [] → rows₂ ≠ [] →
      rows₁.getLast? = rows₂.getLast? →
      isTimerRunningData (some rows₁) = isTimerRunningData (some rows₂)) := by
  refine ⟨?_, ?_, ?_, ?_, ?_⟩
  · rw [isTimerRunning_run hw]
  · intro hnone
    rw [isTimerRunning_run hw, hnone]
    rfl
  · intro rows hrows
    rw [isTimerRunning_run hw, hrows]
    have hne : rows ≠ [] := readRangeG_some_ne_nil hrows
    have hempty : rows.isEmpty = false := by
      cases rows
      · exact absurd rfl hne
      · rfl
    unfold isTimerRunningData
    simp only [hempty, Bool.false_eq_true, if_false, Except.ok.injEq,
      Bool.and_eq_true, Bool.not_eq_true']
  · intro rows pr hrows hfind
    rw [findActiveTimerRow_run hw, hrows] at hfind
    have hne : rows ≠ [] := readRangeG_some_ne_nil hrows
    have hempty : rows.isEmpty = false := by
      cases rows
      · exact absurd rfl hne
      · rfl
    unfold findActiveTimerRowData at hfind
    simp only [hempty, Bool.false_eq_true, if_false, Except.ok.injEq] at hfind
    by_cases hopen : (rowHasStart (rows.getLastD []) && !rowHasEnd (rows.getLastD [])) = true
    · rw [if_pos hopen] at hfind
      simp only [Option.some_inj] at hfind
      subst hfind
      exact ⟨rfl, rfl⟩
    · rw [if_neg hopen] at hfind
      exact Option.noConfusion hfind
  · intro rows₁ rows₂ h1 h2 hlast
    have he1 : rows₁.isEmpty = false := by
      cases rows₁
      · exact absurd rfl h1
      · rfl
    have he2 : rows₂.isEmpty = false := by
      cases rows₂
      · exact absurd rfl h2
      · rfl
    unfold isTimerRunningData
    simp only [he1, he2, Bool.false_eq_true, if_false, List.getLastD_eq_getLast?, hlast]

/-- A period worksheet whose row 6 is open but whose last data row
(row 7) is closed. -/
def earlierOpenSheet : Worksheet :=
  ⟨"2024-05-01", 0,
   [[], [], [], [], [],
    ["2024-05-01", "9:00:00 AM"],
    ["2024-05-01", "9:30:00 AM", "10:00:00 AM"]]⟩

/-- State holding only `earlierOpenSheet`. -/
def stEarlierOpen : EngineState :=
  ⟨⟨[earlierOpenSheet], 1⟩, none, 0, ⟨2024, 5, 1, 0, 0, 0⟩⟩

/-- Witness for C3: a data region whose row 6 is open but whose last
row (row 7) is closed derives the idle state — the earlier open row is
invisible. -/
theorem timer_state_from_last_row_witness :
    (isTimerRunning "2024-05-01" stEarlierOpen).1 = .ok false :=
  ((timer_state_from_last_row stEarlierOpen "2024-05-01" earlierOpenSheet
    (by decide)).1).trans rfl

theorem strLe_refl (a : String) : strLe a a = true := by
  unfold strLe
  induction a.toList with
  | nil => rfl
  | cons c cs ih =>
    unfold charListLe charLt
    simp only [lt_irrefl, decide_False, Bool.false_eq_true, if_false]
    exact ih

/-- In a descending-sorted candidate list, every element strictly
greater than the one `find?` returns fails the predicate. -/
theorem find?_sorted_closed {l : List String} {p : String → Bool} {cs : String}
    (hpair : l.Pairwise (fun a b => strLe b a = true))
    (hfind : l.find? p = some cs) {n : String} (hn : n ∈ l)
    (hgt : strLe n cs = false) : p n = false := by
  induction l with
  | nil => cases hfind
  | cons x xs ih =>
    rcases List.pairwise_cons.mp hpair with ⟨hx, hxs⟩
    cases hpx : p x with
    | true =>
      rw [List.find?_cons_of_pos _ hpx, Option.some_inj] at hfind
      subst hfind
      rcases List.mem_cons.mp hn with rfl | hn'
      · rw [strLe_refl] at hgt
        cases hgt
      · rw [hx n hn'] at hgt
        cases hgt
    | false =>
      rw [List.find?_cons_of_neg _ (by simp [hpx])] at hfind
      rcases List.mem_cons.mp hn with rfl | hn'
      · exact hpx
      · exact ih hxs hfind hn'

/-- **C5.**  `getCurrentSheet` considers exactly the titles matching
the strict `YYYY-MM-DD` pattern, in descending lexicographic order, and
returns the first whose row-1 flag is not exactly `'TRUE'`: a returned
segment is a date-pattern title with an open flag and every strictly
greater date-pattern title is closed; `none` is returned exactly when
every date-pattern title is closed (including when none matches); names
not matching the pattern are never returned. -/
theorem current_segment_resolution (s : EngineState) :
    (∀ cs, (getCurrentSheet s).1 = .ok (some cs) →
      cs ∈ s.doc.titles ∧ dateRegexTest cs = true ∧
      flagIsOpen (sheetFlagData s.doc cs) = true ∧
      (∀ n ∈ s.doc.titles, dateRegexTest n = true → strLe n cs = false →
        flagIsOpen (sheetFlagData s.doc n) = false)) ∧
    ((getCurrentSheet s).1 = .ok none ↔
      ∀ n ∈ s.doc.titles, dateRegexTest n = true →
        flagIsOpen (sheetFlagData s.doc n) = false) ∧
    (sortDesc (s.doc.titles.filter dateRegexTest)).Pairwise
      (fun a b => strLe b a = true) := by
  rcases getCurrentSheet_run s with ⟨ops, hrun, _⟩
  have h1 : (getCurrentSheet s).1 = .ok (currentSheetPure s.doc) := by rw [hrun]
  refine ⟨?_, ?_, sortDesc_pairwise _⟩
  · intro cs hcs
    rw [h1] at hcs
    simp only [Except.ok.injEq] at hcs
    rcases currentSheetPure_mem hcs with ⟨hmem, hpat, hopen⟩
    refine ⟨hmem, hpat, hopen, ?_⟩
    intro n hn hnpat hgt
    have hn' : n ∈ sortDesc (s.doc.titles.filter dateRegexTest) :=
      mem_sortDesc.mpr (List.mem_filter.mpr ⟨hn, hnpat⟩)
    unfold currentSheetPure at hcs
    have := find?_sorted_closed (sortDesc_pairwise _) hcs hn' hgt
    simpa using this
  · rw [h1]
    simp only [Except.ok.injEq]
    constructor
    · intro hnone n hn hnpat
      have hfind : (sortDesc (s.doc.titles.filter dateRegexTest)).find?
          (fun n => flagIsOpen (sheetFlagData s.doc n)) = none := by
        unfold currentSheetPure at hnone
        exact hnone
      have hn' : n ∈ sortDesc (s.doc.titles.filter dateRegexTest) :=
        mem_sortDesc.mpr (List.mem_filter.mpr ⟨hn, hnpat⟩)
      have := List.find?_eq_none.mp hfind n hn'
      simpa using this
    · intro hall
      unfold currentSheetPure
      apply List.find?_eq_none.mpr
      intro n hn
      have hn' := mem_sortDesc.mp hn
      have hmem := List.mem_of_mem_filter hn'
      have hpat := List.of_mem_filter hn'
      simp [hall n hmem hpat]

/-- A closed period worksheet (row-1 flag is the sentinel `TRUE`). -/
def closedSheet1 : Worksheet := ⟨"2024-01-02", 1, [["TRUE"]]⟩

/-- An open period worksheet dated earlier than `closedSheet1`. -/
def openSheet1 : Worksheet := ⟨"2024-01-01", 2, [["FALSE"]]⟩

/-- A worksheet whose title does not match the date pattern. -/
def junkSheet : Worksheet := ⟨"junk", 3, [["x"]]⟩

/-- Config, a closed later segment, an open earlier segment, and a
non-matching title. -/
def stResolve : EngineState :=
  ⟨⟨[configSheetW, closedSheet1, openSheet1, junkSheet], 4⟩, none, 0, ⟨2024, 5, 1, 0, 0, 0⟩⟩

/-- Witness for C5: with the later segment closed, resolution returns
the earlier open one, which matches the pattern, and every strictly
greater matching candidate is closed. -/
theorem current_segment_resolution_witness :
    "2024-01-01" ∈ stResolve.doc.titles ∧ dateRegexTest "2024-01-01" = true ∧
    flagIsOpen (sheetFlagData stResolve.doc "2024-01-01") = true ∧
    (∀ n ∈ stResolve.doc.titles, dateRegexTest n = true →
      strLe n "2024-01-01" = false →
      flagIsOpen (sheetFlagData stResolve.doc n) = false) :=
  (current_segment_resolution stResolve).1 "2024-01-01" rfl

/-- The duration-formatting arithmetic at a non-negative whole-second
duration: the JavaScript float expressions reduce to plain `Nat`
division/remainder, zero-padded. -/
theorem jsDurationString_ofNat (d : Nat) :
    jsDurationString (d : Int) =
      pad2 (d / 3600) ++ ":" ++ pad2 (d / 60 % 60) ++ ":" ++ pad2 (d % 60) := by
  unfold jsDurationString
  have hd : (0 : Int) ≤ (d : Int) := Int.ofNat_nonneg d
  rw [Int.tmod_eq_emod hd (by omega), Int.fdiv_eq_ediv _ (show (0:Int) ≤ 60 by omega),
    Int.tdiv_eq_ediv hd (show (0:Int) ≤ 3600 by omega),
    Int.fdiv_eq_ediv _ (show (0:Int) ≤ 3600 by omega)]
  rw [show (d : Int) / 60 - 60 * ((d : Int) / 3600) = ((d / 60 % 60 : Nat) : Int) by omega]
  rw [show (d : Int) % 60 = ((d % 60 : Nat) : Int) by omega]
  rw [show (d : Int) / 3600 = ((d / 3600 : Nat) : Int) by omega]
  rfl

/-- The duration computation of `stopTimer` on two parseable wall-clock
strings with the end strictly after the start. -/
theorem computeDuration_eq {startStr endStr : String} {t1 t2 : Nat}
    (h1 : parse12HourTime startStr = some t1) (h2 : parse12HourTime endStr = some t2)
    (hlt : t1 < t2) :
    computeDuration startStr endStr =
      pad2 ((t2 - t1) / 3600) ++ ":" ++ pad2 ((t2 - t1) / 60 % 60)
        ++ ":" ++ pad2 ((t2 - t1) % 60) := by
  simp only [computeDuration, h1, h2]
  rw [show ((t2 : Int) - (t1 : Int)) = ((t2 - t1 : Nat) : Int) by omega]
  exact jsDurationString_ofNat (t2 - t1)

/-- **C1.**  For every open row whose stored Start string, and the
newly written End string, denote wall-clock times on the same day with
the end strictly after the start, `stopTimer` returns a duration equal
to end minus start in whole seconds, decomposed as hours, minutes and
seconds, each zero-padded to two digits and joined by colons.  (Both
strings parse to whole seconds, so the floor to whole seconds is
exact.) -/
theorem stopTimer_duration_correct
    {s s1 : EngineState} {cfg : ConfigMap} {ops1 : List StoreOp}
    {cs : String} {w : Worksheet} {row : List String} {idx : Nat} {t1 t2 : Nat}
    (tzdb : Tzdb) (endT : Option DateTime)
    (hc : getConfig s = (.ok cfg, s1, ops1))
    (hcs : currentSheetPure s1.doc = some cs)
    (hw : findSheet s1.doc cs = some w)
    (hrow : findActiveTimerRowData (readRangeG w.grid .a6c) = some (row, idx))
    (hp1 : parse12HourTime (row.getD 1 "") = some t1)
    (hp2 : parse12HourTime (formatTime12Hour
      (getDateInTimezone tzdb (endT.getD s1.nowUtc) (some (timezoneOf cfg)))) = some t2)
    (hlt : t1 < t2) (_hday : t2 < 86400) :
    ∃ r s2 ops, stopTimer tzdb endT s = (.ok r, s2, ops) ∧
      r.duration =
        pad2 ((t2 - t1) / 3600) ++ ":" ++ pad2 ((t2 - t1) / 60 % 60)
          ++ ":" ++ pad2 ((t2 - t1) % 60) := by
  rcases stopTimer_run_ok tzdb endT hc hcs hw hrow with ⟨ops2, hrun, _⟩
  refine ⟨_, _, _, hrun, ?_⟩
  exact computeDuration_eq hp1 hp2 hlt

/-- Witness for C1 at the claim's example: start `09:00:00`, end
`10:15:30` (stored as `9:00:00 AM`, written as `10:15:30 AM`) yield
duration `"01:15:30"`. -/
theorem stopTimer_duration_correct_witness :
    ∃ r s2 ops, stopTimer tzdbEmpty none stOpen = (.ok r, s2, ops) ∧
      r.duration = "01:15:30" := by
  rcases @stopTimer_duration_correct stOpen
      ⟨stOpen.doc, some ([("Hourly Rate", "100"), ("Timezone", "UTC")], 1000), 1000,
        stOpen.nowUtc⟩
      [("Hourly Rate", "100"), ("Timezone", "UTC")]
      [.getWorksheetData "Config" .a1b10]
      "2024-05-01" openPeriodSheet ["2024-05-01", "9:00:00 AM"] 6 32400 36930
      tzdbEmpty none rfl rfl (by decide) (by decide) (by decide) (by decide)
      (by decide) (by decide)
    with ⟨r, s2, ops, hrun, hdur⟩
  exact ⟨r, s2, ops, hrun, hdur.trans rfl⟩

/-- A document whose Config segment exists but is empty. -/
def stEmptyConfig : EngineState :=
  ⟨⟨[⟨"Config", 0, []⟩], 1⟩, none, 1000, ⟨2024, 5, 1, 0, 0, 0⟩⟩

/-- Counterexample to C2 as stated: on a document whose Config segment
exists but is empty, no current segment exists — so the claim requires
a `NoActiveTimer` failure — yet `stopTimer` fails with the
config-not-found error instead, because the config step precedes
segment resolution. -/
theorem stopTimer_noActiveTimer_iff_counterexample :
    (getCurrentSheet stEmptyConfig).1 = .ok none ∧
    (stopTimer tzdbEmpty none stEmptyConfig).1 = .error .configError ∧
    (stopTimer tzdbEmpty none stEmptyConfig).1 ≠ .error .noActiveTimer := by
  refine ⟨rfl, rfl, ?_⟩
  intro h
  have h2 := (show (stopTimer tzdbEmpty none stEmptyConfig).1 = .error .configError
    from rfl).symm.trans h
  simp only [Except.error.injEq] at h2
  exact absurd h2 (by decide)

/-- **C2** (amended: provided the config-resolution step of `stopTimer`
succeeds — in particular whenever the Config segment is absent,
readable with data, or freshly cached — rather than unconditionally).
`stopTimer` fails with `NoActiveTimer` exactly when no current segment
resolves or the current segment's last data row does not have a
non-empty Start with an empty End; otherwise it writes the end time
into that last row's End column (column C) and returns the segment
name, the end instant, and the computed duration. -/
theorem stopTimer_noActiveTimer_iff
    {s s1 : EngineState} {cfg : ConfigMap} {ops1 : List StoreOp}
    (tzdb : Tzdb) (endT : Option DateTime)
    (hc : getConfig s = (.ok cfg, s1, ops1)) :
    ((stopTimer tzdb endT s).1 = .error .noActiveTimer ↔
      (currentSheetPure s1.doc = none ∨
        ∃ cs w, currentSheetPure s1.doc = some cs ∧ findSheet s1.doc cs = some w ∧
          findActiveTimerRowData (readRangeG w.grid .a6c) = none)) ∧
    (∀ cs w row idx, currentSheetPure s1.doc = some cs → findSheet s1.doc cs = some w →
      findActiveTimerRowData (readRangeG w.grid .a6c) = some (row, idx) →
      ∃ ops, stopTimer tzdb endT s =
          (.ok { sheet := cs,
                 endTime := getDateInTimezone tzdb (endT.getD s1.nowUtc) (some (timezoneOf cfg)),
                 duration := computeDuration (row.getD 1 "")
                   (formatTime12Hour
                     (getDateInTimezone tzdb (endT.getD s1.nowUtc) (some (timezoneOf cfg)))) },
           { s1 with doc := (docUpdateCellC s1.doc cs idx
               (formatTime12Hour
                 (getDateInTimezone tzdb (endT.getD s1.nowUtc) (some (timezoneOf cfg))))) },
           ops) ∧
        (.updateCell cs ("C" ++ natToString idx)
          (formatTime12Hour
            (getDateInTimezone tzdb (endT.getD s1.nowUtc) (some (timezoneOf cfg)))) ∈ ops)) := by
  constructor
  · constructor
    · intro herr
      rcases hcs : currentSheetPure s1.doc with _ | cs
      · exact Or.inl rfl
      · rcases findSheet_isSome (currentSheetPure_mem hcs).1 with ⟨w, hw⟩
        rcases hrowd : findActiveTimerRowData (readRangeG w.grid .a6c) with _ | ⟨row, idx⟩
        · exact Or.inr ⟨cs, w, rfl, hw, hrowd⟩
        · exfalso
          rcases stopTimer_run_ok tzdb endT hc hcs hw hrowd with ⟨ops2, hrun, _⟩
          rw [hrun] at herr
          exact Except.noConfusion herr
    · intro hdisj
      rcases hdisj with hnone | ⟨cs, w, hcs, hw, hrowd⟩
      · rcases stopTimer_run_none tzdb endT hc hnone with ⟨ops2, hrun, _⟩
        rw [hrun]
      · rcases stopTimer_run_closed tzdb endT hc hcs hw hrowd with ⟨ops2, hrun, _⟩
        rw [hrun]
  · intro cs w row idx hcs hw hrowd
    rcases stopTimer_run_ok tzdb endT hc hcs hw hrowd with ⟨ops2, hrun, hmem⟩
    exact ⟨ops1 ++ ops2, hrun, List.mem_append.mpr (Or.inr hmem)⟩

/-- A document with a populated Config segment and no period segments. -/
def stNoSegments : EngineState :=
  ⟨⟨[configSheetW], 1⟩, none, 1000, ⟨2024, 5, 1, 0, 0, 0⟩⟩

/-- Witness for the amended C2: with no period segment at all (and a
readable Config), `stopTimer` fails with `NoActiveTimer`. -/
theorem stopTimer_noActiveTimer_iff_witness :
    (stopTimer tzdbEmpty none stNoSegments).1 = .error .noActiveTimer :=
  (@stopTimer_noActiveTimer_iff stNoSegments
    ⟨stNoSegments.doc, some ([("Hourly Rate", "100"), ("Timezone", "UTC")], 1000), 1000,
      stNoSegments.nowUtc⟩
    [("Hourly Rate", "100"), ("Timezone", "UTC")]
    [.getWorksheetData "Config" .a1b10]
    tzdbEmpty none rfl).1.mpr (Or.inl (by decide))

theorem docAfterCreate_titles (d : Doc) (name : String) :
    (docAfterCreate d name).titles =
      (if "Config" ∈ d.titles then d.titles else d.titles ++ ["Config"]) ++ [name] := by
  unfold docAfterCreate Doc.titles
  by_cases hcfg : "Config" ∈ List.map (fun x : Worksheet => x.title) d.sheets
  · simp only [if_pos hcfg, List.map_append]
    rfl
  · simp only [if_neg hcfg, docAddConfig, List.map_append]
    rfl

/-- `createNewTimeSheet` fails at worksheet creation when a worksheet
already bears today's (timezone-adjusted) date as title. -/
theorem createNewTimeSheet_dup {s : EngineState} (tzdb : Tzdb) (tz : Option String)
    (hwf : s.doc.wf)
    (hdup : toISODate (getDateInTimezone tzdb s.nowUtc tz) ∈ s.doc.titles) :
    ∃ s' ops, createNewTimeSheet tzdb tz s = (.error .storeError, s', ops) := by
  set name := toISODate (getDateInTimezone tzdb s.nowUtc tz) with hname
  by_cases hcfg : "Config" ∈ s.doc.titles
  · have hcontains : (s.doc.titles.contains name) = true := by
      simp only [List.contains, List.elem_eq_mem, decide_eq_true_iff]
      exact hdup
    refine ⟨s, [.getWorksheets, .createWorksheet name], ?_⟩
    simp only [createNewTimeSheet, bind_apply, nowUtcM, ← hname,
      if_neg (toISODate_ne_empty _), ensureConfigSheetExists_present hcfg,
      createWorksheetM, hcontains, if_true, List.cons_append, List.nil_append,
      List.append_nil]
  · have hdup1 : name ∈ (docAddConfig s.doc).titles := by
      rw [docAddConfig_titles]
      exact List.mem_append.mpr (Or.inl hdup)
    have hcontains : ((docAddConfig s.doc).titles.contains name) = true := by
      simp only [List.contains, List.elem_eq_mem, decide_eq_true_iff]
      exact hdup1
    refine ⟨{ s with doc := docAddConfig s.doc },
      [.getWorksheets, .createWorksheet "Config",
       .batchUpdate (configSheetRequests s.doc.nextId), .createWorksheet name], ?_⟩
    simp only [createNewTimeSheet, bind_apply, nowUtcM, ← hname,
      if_neg (toISODate_ne_empty _), ensureConfigSheetExists_absent hwf hcfg,
      createWorksheetM, hcontains, if_true, List.cons_append, List.nil_append,
      List.append_nil]

/-- **C8.**  Whenever `createNewTimeSheet` succeeds it has ensured the
Config segment exists before creating the new period segment (the
Config-provisioning calls precede the `createWorksheet` in the trace,
and Config is present afterwards); it names the segment from the
timezone-adjusted current date; and it issues, after the creation, a
single batched layout mutation whose request list contains the row-1
boolean checkbox, the rows-2/3 summary formulas `=SUM(D6:D)` and
`=SUM(E6:E)`, the five column headers at row 5, and the row-6
columns-D/E seed formula pair computing Total Time as `End − Start` and
Billable Amount as `TotalTime × 24 ×` the hourly-rate config cell. -/
theorem createNewTimeSheet_layout (tzdb : Tzdb) (tz : Option String) (s : EngineState)
    (hwf : s.doc.wf)
    {name : String} {s' : EngineState} {ops : List StoreOp}
    (hok : createNewTimeSheet tzdb tz s = (.ok name, s', ops)) :
    name = toISODate (getDateInTimezone tzdb s.nowUtc tz) ∧
    "Config" ∈ s'.doc.titles ∧
    name ∈ s'.doc.titles ∧
    ∃ ops0 nid,
      ops = ops0 ++ [.createWorksheet name, .batchUpdate (createNewTimeSheetRequests nid)] ∧
      (∀ op ∈ ops0, op = .getWorksheets ∨ op = .createWorksheet "Config" ∨
        ∃ cid, op = .batchUpdate (configSheetRequests cid)) ∧
      .checkboxValidation nid 0 0 ∈ createNewTimeSheetRequests nid ∧
      .updateCells nid 1 0 [[.str "Total Hours:", .formula "=SUM(D6:D)"],
        [.str "Total Billable:", .formula "=SUM(E6:E)"]] ∈ createNewTimeSheetRequests nid ∧
      .updateCells nid 4 0 [[.str "Date", .str "Start", .str "End", .str "Total Time",
        .str "Billable Amount"]] ∈ createNewTimeSheetRequests nid ∧
      .updateCells nid 5 3 [[.formula "=IF(C6<>\"\", C6-B6, \"\")",
        .formula "=IF(D6<>\"\", D6*24*Config!$B$1, \"\")"]] ∈ createNewTimeSheetRequests nid := by
  by_cases hnew : toISODate (getDateInTimezone tzdb s.nowUtc tz) ∈ s.doc.titles
  · exfalso
    rcases createNewTimeSheet_dup tzdb tz hwf hnew with ⟨s2, ops2, hfail⟩
    rw [hok] at hfail
    exact Except.noConfusion (congrArg Prod.fst hfail)
  · rcases createNewTimeSheet_run tzdb tz hwf hnew with ⟨ops0, hrun, hops0⟩
    rw [hok] at hrun
    have hname : name = toISODate (getDateInTimezone tzdb s.nowUtc tz) := by
      have := congrArg Prod.fst hrun
      simp only [Except.ok.injEq] at this
      exact this
    have hstate := congrArg (fun p : Except TError String × EngineState × List StoreOp =>
      p.2.1) hrun
    have hops := congrArg (fun p : Except TError String × EngineState × List StoreOp =>
      p.2.2) hrun
    simp only at hstate hops
    subst hname
    refine ⟨rfl, ?_, ?_, ops0,
      (if "Config" ∈ s.doc.titles then s.doc.nextId else s.doc.nextId + 1),
      hops, hops0, ?_, ?_, ?_, ?_⟩
    · rw [hstate]
      show "Config" ∈ (docAfterCreate s.doc _).titles
      rw [docAfterCreate_titles]
      by_cases hcfg : "Config" ∈ s.doc.titles
      · rw [if_pos hcfg]
        exact List.mem_append.mpr (Or.inl hcfg)
      · rw [if_neg hcfg]
        exact List.mem_append.mpr
          (Or.inl (List.mem_append.mpr (Or.inr (List.mem_singleton.mpr rfl))))
    · rw [hstate]
      show _ ∈ (docAfterCreate s.doc _).titles
      rw [docAfterCreate_titles]
      exact List.mem_append.mpr (Or.inr (List.mem_singleton.mpr rfl))
    · simp [createNewTimeSheetRequests]
    · simp [createNewTimeSheetRequests]
    · simp [createNewTimeSheetRequests]
    · simp [createNewTimeSheetRequests]

/-- A store call that is not a mutation is in particular not a
row-level mutation. -/
theorem notMut_notRow {op : StoreOp} (h : op.isMutation = false) :
    op.isRowMutation = false := by
  cases op <;> first | rfl | cases h

/-- A fresh period worksheet's data region is empty. -/
theorem layout_a6c_empty : readRangeG newSheetLayoutGrid .a6c = none := rfl

/-- No title of a document matches a name outside its titles. -/
theorem find?_title_none {d : Doc} {name : String} (h : name ∉ d.titles) :
    d.sheets.find? (·.title == name) = none := by
  apply List.find?_eq_none.mpr
  intro w hw
  simp only [beq_iff_eq]
  intro ht
  apply h
  rw [← ht]
  exact List.mem_map.mpr ⟨w, hw, rfl⟩

/-- Looking up the freshly created period worksheet after
`createNewTimeSheet`. -/
theorem findSheet_docAfterCreate {d : Doc} {name : String}
    (hnew : name ∉ d.titles) (hnc : name ≠ "Config") :
    findSheet (docAfterCreate d name) name =
      some ⟨name, (if "Config" ∈ d.titles then d.nextId else d.nextId + 1),
        newSheetLayoutGrid⟩ := by
  unfold docAfterCreate findSheet
  by_cases hcfg : "Config" ∈ d.titles
  · simp only [if_pos hcfg, List.find?_append, find?_title_none hnew]
    simp
  · have hnew1 : name ∉ (docAddConfig d).titles := by
      rw [docAddConfig_titles]
      intro hmem
      rcases List.mem_append.mp hmem with hl | hr
      · exact hnew hl
      · simp only [List.mem_singleton] at hr
        exact hnc hr
    simp only [if_neg hcfg, List.find?_append, find?_title_none hnew1]
    simp [docAddConfig]

/-- `startTimer` when the current segment's last data row is open: the
`TimerAlreadyRunning` failure, with only reads after the config step.-/
theorem startTimer_run_running {s s1 : EngineState} {cfg : ConfigMap} {ops1 : List StoreOp}
    {cs : String} {w : Worksheet} (tzdb : Tzdb)
    (hc : getConfig s = (.ok cfg, s1, ops1))
    (hcs : currentSheetPure s1.doc = some cs)
    (hw : findSheet s1.doc cs = some w)
    (hrun : isTimerRunningData (readRangeG w.grid .a6c) = true) :
    ∃ ops2, startTimer tzdb s = (.error .timerAlreadyRunning, s1, ops1 ++ ops2) ∧
      ∀ op ∈ ops2, op.isMutation = false := by
  rcases getCurrentSheet_run s1 with ⟨opsc, hcrun, hcmut⟩
  refine ⟨opsc ++ [.getWorksheetData cs .a6c], ?_, ?_⟩
  · simp only [startTimer, bind_apply, hc, hcrun, hcs, pure_apply,
      isTimerRunning_run hw, hrun, if_true, mThrow,
      List.append_nil, List.append_assoc, List.cons_append, List.nil_append]
  · intro op hop
    rcases List.mem_append.mp hop with hop' | hop'
    · exact hcmut op hop'
    · simp only [List.mem_singleton] at hop'
      subst hop'
      rfl

/-- `startTimer` when a current segment resolves and its last data row
is not open: appends `[date, startTime]` (End left empty) to that
segment and returns the segment, date and start time, all derived from
the timezone-adjusted clock. -/
theorem startTimer_run_idle {s s1 : EngineState} {cfg : ConfigMap} {ops1 : List StoreOp}
    {cs : String} {w : Worksheet} (tzdb : Tzdb)
    (hc : getConfig s = (.ok cfg, s1, ops1))
    (hcs : currentSheetPure s1.doc = some cs)
    (hw : findSheet s1.doc cs = some w)
    (hidle : isTimerRunningData (readRangeG w.grid .a6c) = false) :
    ∃ ops2, startTimer tzdb s =
        (.ok { sheet := cs,
               date := toISODate (getDateInTimezone tzdb s1.nowUtc (some (timezoneOf cfg))),
               start := formatTime12Hour
                 (getDateInTimezone tzdb s1.nowUtc (some (timezoneOf cfg))) },
         { s1 with doc := (docAppendRow s1.doc cs
             [toISODate (getDateInTimezone tzdb s1.nowUtc (some (timezoneOf cfg))),
              formatTime12Hour (getDateInTimezone tzdb s1.nowUtc (some (timezoneOf cfg)))]) },
         ops1 ++ ops2) ∧
      (.appendRow cs
        [toISODate (getDateInTimezone tzdb s1.nowUtc (some (timezoneOf cfg))),
         formatTime12Hour (getDateInTimezone tzdb s1.nowUtc (some (timezoneOf cfg)))] ∈ ops2) := by
  rcases getCurrentSheet_run s1 with ⟨opsc, hcrun, hcmut⟩
  refine ⟨opsc ++ [.getWorksheetData cs .a6c,
    .appendRow cs
      [toISODate (getDateInTimezone tzdb s1.nowUtc (some (timezoneOf cfg))),
       formatTime12Hour (getDateInTimezone tzdb s1.nowUtc (some (timezoneOf cfg)))]],
    ?_, by simp⟩
  simp only [startTimer, bind_apply, hc, hcrun, hcs, pure_apply,
    isTimerRunning_run hw, hidle, Bool.false_eq_true, if_false, nowUtcM,
    appendRowM_run hw,
    List.append_nil, List.append_assoc, List.cons_append, List.nil_append]

/-- `startTimer` when no current segment resolves and today's segment
name is unused: provisions the segment, then appends the first entry to
it and returns it. -/
theorem startTimer_run_create_idle {s s1 : EngineState} {cfg : ConfigMap}
    {ops1 : List StoreOp} (tzdb : Tzdb)
    (hc : getConfig s = (.ok cfg, s1, ops1))
    (hcs : currentSheetPure s1.doc = none)
    (hwf1 : s1.doc.wf)
    (hnew : toISODate (getDateInTimezone tzdb s1.nowUtc (some (timezoneOf cfg)))
      ∉ s1.doc.titles) :
    ∃ ops2, startTimer tzdb s =
        (.ok { sheet := toISODate (getDateInTimezone tzdb s1.nowUtc (some (timezoneOf cfg))),
               date := toISODate (getDateInTimezone tzdb s1.nowUtc (some (timezoneOf cfg))),
               start := formatTime12Hour
                 (getDateInTimezone tzdb s1.nowUtc (some (timezoneOf cfg))) },
         { s1 with doc := (docAppendRow
             (docAfterCreate s1.doc
               (toISODate (getDateInTimezone tzdb s1.nowUtc (some (timezoneOf cfg)))))
             (toISODate (getDateInTimezone tzdb s1.nowUtc (some (timezoneOf cfg))))
             [toISODate (getDateInTimezone tzdb s1.nowUtc (some (timezoneOf cfg))),
              formatTime12Hour (getDateInTimezone tzdb s1.nowUtc (some (timezoneOf cfg)))]) },
         ops1 ++ ops2) := by
  rcases getCurrentSheet_run s1 with ⟨opsc, hcrun, hcmut⟩
  rcases createNewTimeSheet_run tzdb (some (timezoneOf cfg)) hwf1 hnew with
    ⟨ops0, hcreate, hops0⟩
  have hw2 := findSheet_docAfterCreate hnew
    (toISODate_ne_config (getDateInTimezone tzdb s1.nowUtc (some (timezoneOf cfg))))
  have hidle : isTimerRunningData (readRangeG newSheetLayoutGrid .a6c) = false := rfl
  have hw2' : findSheet
      ({ s1 with doc := (docAfterCreate s1.doc
        (toISODate (getDateInTimezone tzdb s1.nowUtc (some (timezoneOf cfg))))) } :
          EngineState).doc
      (toISODate (getDateInTimezone tzdb s1.nowUtc (some (timezoneOf cfg)))) =
      some ⟨toISODate (getDateInTimezone tzdb s1.nowUtc (some (timezoneOf cfg))),
        (if "Config" ∈ s1.doc.titles then s1.doc.nextId else s1.doc.nextId + 1),
        newSheetLayoutGrid⟩ := hw2
  refine ⟨opsc ++ (ops0 ++
    [.createWorksheet (toISODate (getDateInTimezone tzdb s1.nowUtc (some (timezoneOf cfg)))),
     .batchUpdate (createNewTimeSheetRequests
       (if "Config" ∈ s1.doc.titles then s1.doc.nextId else s1.doc.nextId + 1)),
     .getWorksheetData (toISODate (getDateInTimezone tzdb s1.nowUtc (some (timezoneOf cfg))))
       .a6c,
     .appendRow (toISODate (getDateInTimezone tzdb s1.nowUtc (some (timezoneOf cfg))))
       [toISODate (getDateInTimezone tzdb s1.nowUtc (some (timezoneOf cfg))),
        formatTime12Hour (getDateInTimezone tzdb s1.nowUtc (some (timezoneOf cfg)))]]), ?_⟩
  simp only [startTimer, bind_apply, hc, hcrun, hcs, hcreate, pure_apply,
    isTimerRunning_run hw2', hidle, Bool.false_eq_true, if_false, nowUtcM,
    appendRowM_run hw2',
    List.append_nil, List.append_assoc, List.cons_append, List.nil_append]

/-- `startTimer` when no current segment resolves but a worksheet
already bears today's segment name: the worksheet creation fails and
the store error propagates. -/
theorem startTimer_run_create_dup {s s1 : EngineState} {cfg : ConfigMap}
    {ops1 : List StoreOp} (tzdb : Tzdb)
    (hc : getConfig s = (.ok cfg, s1, ops1))
    (hcs : currentSheetPure s1.doc = none)
    (hwf1 : s1.doc.wf)
    (hdup : toISODate (getDateInTimezone tzdb s1.nowUtc (some (timezoneOf cfg)))
      ∈ s1.doc.titles) :
    ∃ s2 ops, startTimer tzdb s = (.error .storeError, s2, ops) := by
  rcases getCurrentSheet_run s1 with ⟨opsc, hcrun, hcmut⟩
  rcases createNewTimeSheet_dup tzdb (some (timezoneOf cfg)) hwf1 hdup with
    ⟨s', ops', hfail⟩
  refine ⟨s', ops1 ++ (opsc ++ ops'), ?_⟩
  simp only [startTimer, bind_apply, hc, hcrun, hcs, hfail, pure_apply,
    List.append_nil, List.append_assoc, List.cons_append, List.nil_append]

/-- Case analysis of `getConfig` on a well-formed document: the call
resolves to one of the four behaviours; in all of them the trace holds
no row-level mutation and the clock and well-formedness carry over. -/
theorem getConfig_analysis (s : EngineState) (hwf : s.doc.wf) :
    ∃ r s1 ops1, getConfig s = (r, s1, ops1) ∧
      (∀ op ∈ ops1, op.isRowMutation = false) ∧
      s1.doc.wf ∧ s1.nowUtc = s.nowUtc ∧ s1.nowMs = s.nowMs := by
  by_cases hfresh : cacheFresh s = true
  · rcases cacheFresh_true hfresh with ⟨cfg, ts, hcache, hlt⟩
    exact ⟨_, _, _, getConfig_cacheHit hcache hlt, by simp, hwf, rfl, rfl⟩
  · have hfresh' : cacheFresh s = false := by simpa using hfresh
    rcases hF : findSheet s.doc "Config" with _ | w
    · refine ⟨_, _, _, getConfig_absent hwf hfresh' hF, ?_, docAddConfig_wf hwf, rfl, rfl⟩
      intro op hop
      simp only [List.mem_cons, List.not_mem_nil, or_false] at hop
      rcases hop with rfl | rfl | rfl <;> rfl
    · rcases hr : readRangeG w.grid .a1b10 with _ | rows
      · refine ⟨_, _, _, getConfig_empty hfresh' hF hr, ?_, hwf, rfl, rfl⟩
        intro op hop
        simp only [List.mem_singleton] at hop
        subst hop
        rfl
      · refine ⟨_, _, _, getConfig_read hfresh' hF hr, ?_, hwf, rfl, rfl⟩
        intro op hop
        simp only [List.mem_singleton] at hop
        subst hop
        rfl

/-- A document with an open period segment and no Config segment. -/
def stOpenNoConfig : EngineState :=
  ⟨⟨[openPeriodSheet], 2⟩, none, 1000, ⟨2024, 5, 1, 10, 0, 0⟩⟩

/-- Counterexample to C10 as stated: on a document with an open segment
but no Config segment, `startTimer` fails with `TimerAlreadyRunning`
*after* having issued mutations to the document store — the implicit
Config provisioning (`createWorksheet`/`batchUpdate`) performed by the
config step precedes the failing check. -/
theorem startTimer_error_mutation_counterexample :
    (startTimer tzdbEmpty stOpenNoConfig).1 = .error .timerAlreadyRunning ∧
    .createWorksheet "Config" ∈ (startTimer tzdbEmpty stOpenNoConfig).2.2 ∧
    (StoreOp.createWorksheet "Config").isMutation = true := by
  refine ⟨rfl, ?_, rfl⟩
  have : (startTimer tzdbEmpty stOpenNoConfig).2.2 =
      [.getWorksheetData "Config" .a1b10, .createWorksheet "Config",
       .batchUpdate (configSheetRequests 2), .getWorksheets,
       .getWorksheetData "2024-05-01" .a1, .getWorksheetData "2024-05-01" .a6c] := rfl
  rw [this]
  simp

/-- **C10** (amended: no *row-level* mutation — `appendRow` or
`updateCell` — has been issued when `startTimer` fails with
`TimerAlreadyRunning` or `stopTimer` fails with `NoActiveTimer`; the
config step may still have provisioned the Config segment, so the
stronger "no mutation at all" in the original claim fails).  The
failing check happens strictly before the `appendRow`/`updateCell`
call, so the ledger rows are unchanged on these user-facing errors. -/
theorem user_errors_no_row_mutation (tzdb : Tzdb) (endT : Option DateTime)
    (s : EngineState) (hwf : s.doc.wf) :
    ((startTimer tzdb s).1 = .error .timerAlreadyRunning →
      ∀ op ∈ (startTimer tzdb s).2.2, op.isRowMutation = false) ∧
    ((stopTimer tzdb endT s).1 = .error .noActiveTimer →
      ∀ op ∈ (stopTimer tzdb endT s).2.2, op.isRowMutation = false) := by
  rcases getConfig_analysis s hwf with ⟨r, s1, ops1, hg, hops1, hwf1, _, _⟩
  constructor
  · -- startTimer
    cases r with
    | error e =>
      intro _ op hop
      have htr : (startTimer tzdb s).2.2 = ops1 := by
        simp only [startTimer, bind_apply, hg]
      rw [htr] at hop
      exact hops1 op hop
    | ok cfg =>
      rcases hcs : currentSheetPure s1.doc with _ | cs
      · -- create branch: the result is never TimerAlreadyRunning
        intro herr
        exfalso
        by_cases hnew : toISODate (getDateInTimezone tzdb s1.nowUtc (some (timezoneOf cfg)))
            ∈ s1.doc.titles
        · rcases startTimer_run_create_dup tzdb hg hcs hwf1 hnew with ⟨s2, ops2, hfail⟩
          rw [hfail] at herr
          simp only [Except.error.injEq] at herr
          exact absurd herr (by decide)
        · rcases startTimer_run_create_idle tzdb hg hcs hwf1 hnew with ⟨ops2, hok⟩
          rw [hok] at herr
          exact Except.noConfusion herr
      · rcases findSheet_isSome (currentSheetPure_mem hcs).1 with ⟨w, hw⟩
        cases hrun : isTimerRunningData (readRangeG w.grid .a6c) with
        | true =>
          intro _ op hop
          rcases startTimer_run_running tzdb hg hcs hw hrun with ⟨ops2, heq, hmut2⟩
          rw [heq] at hop
          rcases List.mem_append.mp hop with h1 | h2
          · exact hops1 op h1
          · exact notMut_notRow (hmut2 op h2)
        | false =>
          intro herr
          exfalso
          rcases startTimer_run_idle tzdb hg hcs hw hrun with ⟨ops2, hok, _⟩
          rw [hok] at herr
          exact Except.noConfusion herr
  · -- stopTimer
    cases r with
    | error e =>
      intro _ op hop
      have htr : (stopTimer tzdb endT s).2.2 = ops1 := by
        simp only [stopTimer, bind_apply, hg]
      rw [htr] at hop
      exact hops1 op hop
    | ok cfg =>
      rcases hcs : currentSheetPure s1.doc with _ | cs
      · intro _ op hop
        rcases stopTimer_run_none tzdb endT hg hcs with ⟨ops2, heq, hmut2⟩
        rw [heq] at hop
        rcases List.mem_append.mp hop with h1 | h2
        · exact hops1 op h1
        · exact notMut_notRow (hmut2 op h2)
      · rcases findSheet_isSome (currentSheetPure_mem hcs).1 with ⟨w, hw⟩
        rcases hrowd : findActiveTimerRowData (readRangeG w.grid .a6c) with _ | pr
        · intro _ op hop
          rcases stopTimer_run_closed tzdb endT hg hcs hw hrowd with ⟨ops2, heq, hmut2⟩
          rw [heq] at hop
          rcases List.mem_append.mp hop with h1 | h2
          · exact hops1 op h1
          · exact notMut_notRow (hmut2 op h2)
        · intro herr
          exfalso
          rcases stopTimer_run_ok tzdb endT hg hcs hw
            (show findActiveTimerRowData (readRangeG w.grid .a6c) = some (pr.1, pr.2)
              from by rw [hrowd]) with ⟨ops2, hok, _⟩
          rw [hok] at herr
          exact Except.noConfusion herr

/-- Witness for the amended C10: on a document with an open segment and
no Config, `startTimer` fails with `TimerAlreadyRunning` while the
trace — which does include Config provisioning — contains no
`appendRow` or `updateCell`. -/
theorem user_errors_no_row_mutation_witness :
    ((startTimer tzdbEmpty stOpenNoConfig).2.2).all (fun op => !op.isRowMutation) = true := by
  have h := (user_errors_no_row_mutation tzdbEmpty none stOpenNoConfig
    (by intro w hw; simp only [stOpenNoConfig, List.mem_singleton] at hw; subst hw; decide)).1
    rfl
  apply List.all_eq_true.mpr
  intro op hop
  simp [h op hop]

/-! ## Toolkit for the double-start/stop-without-start claim -/

theorem dateRegexTest_config : dateRegexTest "Config" = false := rfl

/-- A date-pattern title has exactly ten characters. -/
theorem dateRegexTest_length {t : String} (h : dateRegexTest t = true) :
    t.toList.length = 10 := by
  unfold dateRegexTest at h
  rcases hm : t.toList with _ | ⟨a, l⟩ <;> rw [hm] at h
  · cases h
  · rcases l with _ | ⟨b, l⟩
    · cases h
    rcases l with _ | ⟨c, l⟩
    · cases h
    rcases l with _ | ⟨d, l⟩
    · cases h
    rcases l with _ | ⟨e, l⟩
    · cases h
    rcases l with _ | ⟨f, l⟩
    · cases h
    rcases l with _ | ⟨g, l⟩
    · cases h
    rcases l with _ | ⟨h1, l⟩
    · cases h
    rcases l with _ | ⟨i, l⟩
    · cases h
    rcases l with _ | ⟨j, l⟩
    · cases h
    rcases l with _ | ⟨k, l⟩
    · rfl
    · cases h

/-- A date-pattern title is never the Config title. -/
theorem dateRegexTest_ne_config {t : String} (h : dateRegexTest t = true) :
    t ≠ "Config" := by
  intro heq
  subst heq
  cases (dateRegexTest_config.symm.trans h)

theorem docAppendRow_wf {d : Doc} (h : d.wf) (t : String) (row : List String) :
    (docAppendRow d t row).wf := by
  intro w hw
  unfold docAppendRow at hw
  simp only at hw
  rcases List.mem_map.mp hw with ⟨w0, hw0, heq⟩
  by_cases ht : w0.title = t
  · rw [if_pos ht] at heq
    subst heq
    exact h w0 hw0
  · rw [if_neg ht] at heq
    subst heq
    exact h w0 hw0

theorem docAppendRow_titles (d : Doc) (t : String) (row : List String) :
    (docAppendRow d t row).titles = d.titles := by
  unfold docAppendRow Doc.titles
  simp only
  rw [List.map_map]
  apply List.map_congr_left
  intro w _
  by_cases ht : w.title = t <;> simp [ht]

theorem find?_congr_local {α : Type} {l : List α} {p q : α → Bool}
    (h : ∀ x ∈ l, p x = q x) : l.find? p = l.find? q := by
  induction l with
  | nil => rfl
  | cons x xs ih =>
    rw [List.find?_cons, List.find?_cons, h x (List.mem_cons_self x xs)]
    cases q x
    · exact ih fun y hy => h y (List.mem_cons_of_mem x hy)
    · rfl

theorem findSheet_docAppendRow (d : Doc) (t : String) (row : List String) (n : String) :
    findSheet (docAppendRow d t row) n =
      (findSheet d n).map fun w =>
        if w.title = t then { w with grid := w.grid ++ [row] } else w := by
  unfold docAppendRow findSheet
  simp only [List.find?_map]
  congr 1
  apply find?_congr_local
  intro w _
  by_cases ht : w.title = t <;> simp [ht, Function.comp]

theorem trimTrailing_concat_of_neg {α : Type} {p : α → Bool} {x : α}
    (hx : p x = false) (xs : List α) : trimTrailing p (xs ++ [x]) = xs ++ [x] := by
  unfold trimTrailing
  rw [List.reverse_append]
  simp only [List.reverse_cons, List.reverse_nil, List.nil_append, List.cons_append,
    List.dropWhile_cons]
  rw [hx]
  simp

/-- Reading `A1` is unaffected by appending a row to a nonempty grid. -/
theorem readRangeG_a1_append {g : Grid} (h : g ≠ []) (row : List String) :
    readRangeG (g ++ [row]) .a1 = readRangeG g .a1 := by
  unfold readRangeG
  simp only
  rw [List.take_append_of_le_length]
  rcases g with _ | _
  · exact absurd rfl h
  · simp

/-- Appending an open entry (non-empty start, no end) to a
layout-conforming grid makes the derived state running. -/
theorem isTimerRunningData_append {g : Grid} (h5 : 5 ≤ g.length)
    {date time : String} (ht : time ≠ "") :
    isTimerRunningData (readRangeG (g ++ [[date, time]]) .a6c) = true := by
  have htrimrow : trimTrailing (· == "") (List.take 3 [date, time]) = [date, time] := by
    show trimTrailing (· == "") [date, time] = [date, time]
    have h2 : ([date] : List String) ++ [time] = [date, time] := rfl
    rw [← h2]
    exact trimTrailing_concat_of_neg (by simp [ht]) [date]
  unfold readRangeG
  simp only
  rw [List.drop_append_of_le_length h5, List.map_append, List.map_append]
  simp only [List.map_cons, List.map_nil]
  rw [htrimrow]
  rw [trimTrailing_concat_of_neg (show ([date, time] : List String).isEmpty = false
    from rfl)]
  rw [if_neg (by simp [List.isEmpty_iff])]
  simp only [isTimerRunningData]
  rw [if_neg (by simp [List.isEmpty_iff])]
  rw [List.getLastD_concat]
  unfold rowHasStart rowHasEnd
  simp [ht]

/-- Appending an entry to a segment with a nonempty grid does not
change any segment's row-1 flag. -/
theorem sheetFlagData_docAppendRow {d : Doc} {cs : String} {w : Worksheet}
    (hw : findSheet d cs = some w) (hne : w.grid ≠ []) (row : List String) (n : String) :
    sheetFlagData (docAppendRow d cs row) n = sheetFlagData d n := by
  unfold sheetFlagData
  rw [findSheet_docAppendRow]
  rcases hF : findSheet d n with _ | wn
  · rfl
  · simp only [Option.map_some']
    by_cases htt : wn.title = cs
    · have hn : wn.title = n := (findSheet_mem hF).2
      have hcs : n = cs := hn.symm.trans htt
      subst hcs
      rw [hw] at hF
      have hwn : w = wn := Option.some_inj.mp hF
      subst hwn
      rw [if_pos htt]
      exact readRangeG_a1_append hne row
    · rw [if_neg htt]

/-- Resolution only looks at titles and flags. -/
theorem currentSheetPure_congr {d1 d2 : Doc} (ht : d1.titles = d2.titles)
    (hf : ∀ n ∈ d1.titles, sheetFlagData d1 n = sheetFlagData d2 n) :
    currentSheetPure d1 = currentSheetPure d2 := by
  unfold currentSheetPure
  rw [ht]
  apply find?_congr_local
  intro n hn
  have hn' : n ∈ d1.titles := by
    rw [ht]
    exact List.mem_of_mem_filter (mem_sortDesc.mp hn)
  rw [hf n hn']

/-- Provisioning Config does not change segment resolution. -/
theorem currentSheetPure_docAddConfig (d : Doc) :
    currentSheetPure (docAddConfig d) = currentSheetPure d := by
  unfold currentSheetPure
  rw [docAddConfig_titles, List.filter_append]
  rw [show List.filter dateRegexTest ["Config"] = [] from rfl, List.append_nil]
  apply find?_congr_local
  intro n hn
  have hn' : n ∈ d.titles := List.mem_of_mem_filter (mem_sortDesc.mp hn)
  rcases findSheet_isSome hn' with ⟨wn, hwn⟩
  unfold sheetFlagData
  have : findSheet (docAddConfig d) n = some wn := by
    unfold findSheet
    rw [show (docAddConfig d).sheets = d.sheets ++
      [⟨"Config", d.nextId, [["Hourly Rate", "100"], ["Timezone", "UTC"]]⟩] from rfl]
    rw [List.find?_append]
    unfold findSheet at hwn
    rw [hwn]
    rfl
  rw [this, hwn]

/-- With no date-pattern title, no current segment resolves. -/
theorem currentSheetPure_none_of_no_match {d : Doc}
    (h : ∀ n ∈ d.titles, dateRegexTest n = false) : currentSheetPure d = none := by
  unfold currentSheetPure
  have : d.titles.filter dateRegexTest = [] := by
    apply List.filter_eq_nil_iff.mpr
    intro n hn
    simp [h n hn]
  rw [this]
  rfl

theorem find?_unique_some {l : List String} {p : String → Bool} {nm : String}
    (hmem : nm ∈ l) (hp : p nm = true)
    (hothers : ∀ x ∈ l, x ≠ nm → p x = false) : l.find? p = some nm := by
  induction l with
  | nil => cases hmem
  | cons x xs ih =>
    by_cases hx : x = nm
    · subst hx
      rw [List.find?_cons_of_pos _ hp]
    · have hmem' : nm ∈ xs := by
        rcases List.mem_cons.mp hmem with h | h
        · exact absurd h.symm hx
        · exact h
      rw [List.find?_cons_of_neg _ (by simp [hothers x (List.mem_cons_self x xs) hx])]
      exact ih hmem' fun y hy => hothers y (List.mem_cons_of_mem x hy)

theorem formatTime12Hour_ne_empty (d : DateTime) : formatTime12Hour d ≠ "" := by
  intro h
  have hl := congrArg String.length h
  unfold formatTime12Hour at hl
  simp only [str_length_append] at hl
  have hsp : (" " : String).length = 1 := rfl
  have hco : (":" : String).length = 1 := rfl
  by_cases hb : d.hour % 24 < 12
  · rw [if_pos hb] at hl
    have ham : ("AM" : String).length = 2 := rfl
    rw [hsp, hco, ham] at hl
    have hz : ("" : String).length = 0 := rfl
    rw [hz] at hl
    omega
  · rw [if_neg hb] at hl
    have hpm : ("PM" : String).length = 2 := rfl
    rw [hsp, hco, hpm] at hl
    have hz : ("" : String).length = 0 := rfl
    rw [hz] at hl
    omega

/-- `getConfig` succeeds whenever the Config segment is not
present-but-empty; the document is unchanged or gains the default
Config segment. -/
theorem getConfig_ok (s : EngineState) (hwf : s.doc.wf)
    (hne : ∀ w, findSheet s.doc "Config" = some w → readRangeG w.grid .a1b10 ≠ none) :
    ∃ cfg s1 ops1, getConfig s = (.ok cfg, s1, ops1) ∧
      (s1.doc = s.doc ∨
        (findSheet s.doc "Config" = none ∧ s1.doc = docAddConfig s.doc)) ∧
      s1.doc.wf ∧ s1.nowUtc = s.nowUtc ∧ s1.nowMs = s.nowMs := by
  by_cases hfresh : cacheFresh s = true
  · rcases cacheFresh_true hfresh with ⟨cfg, ts, hcache, hlt⟩
    exact ⟨cfg, s, [], getConfig_cacheHit hcache hlt, Or.inl rfl, hwf, rfl, rfl⟩
  · have hfresh' : cacheFresh s = false := by simpa using hfresh
    rcases hF : findSheet s.doc "Config" with _ | w
    · exact ⟨_, _, _, getConfig_absent hwf hfresh' hF, Or.inr ⟨rfl, rfl⟩,
        docAddConfig_wf hwf, rfl, rfl⟩
    · rcases hr : readRangeG w.grid .a1b10 with _ | rows
      · exact absurd hr (hne w hF)
      · exact ⟨_, _, _, getConfig_read hfresh' hF hr, Or.inl rfl, hwf, rfl, rfl⟩

/-- A hit in the front sheets of an extended document is unchanged. -/
theorem findSheet_sheets_append {sheets : List Worksheet} {k : Nat} {n : String}
    {w : Worksheet} (ws : List Worksheet)
    (h : sheets.find? (fun x => x.title == n) = some w) :
    findSheet ⟨sheets ++ ws, k⟩ n = some w := by
  show (sheets ++ ws).find? (fun x => x.title == n) = some w
  rw [List.find?_append, h]
  rfl

/-- Found lookups survive Config provisioning. -/
theorem findSheet_docAddConfig_found {d : Doc} {n : String} {w : Worksheet}
    (h : findSheet d n = some w) : findSheet (docAddConfig d) n = some w := by
  unfold findSheet at h
  exact findSheet_sheets_append _ h

/-- Provisioning Config on a document lacking it makes the default
Config segment findable. -/
theorem findSheet_docAddConfig_new {d : Doc} (h : findSheet d "Config" = none) :
    findSheet (docAddConfig d) "Config" =
      some ⟨"Config", d.nextId, [["Hourly Rate", "100"], ["Timezone", "UTC"]]⟩ := by
  unfold findSheet at h
  show (d.sheets ++
      [(⟨"Config", d.nextId, [["Hourly Rate", "100"], ["Timezone", "UTC"]]⟩ :
        Worksheet)]).find? (fun x => x.title == "Config") = _
  rw [List.find?_append, h]
  rfl

/-- The default Config rows read back as themselves. -/
theorem readRangeG_defaults :
    readRangeG ([["Hourly Rate", "100"], ["Timezone", "UTC"]] : Grid) .a1b10 =
      some [["Hourly Rate", "100"], ["Timezone", "UTC"]] := rfl

/-- Every Config lookup in the document reads back nonempty: the
precondition under which `getConfig` cannot throw. -/
def configReadable (d : Doc) : Prop :=
  ∀ w, findSheet d "Config" = some w → readRangeG w.grid .a1b10 ≠ none

theorem configReadable_docAddConfig {d : Doc} (h : configReadable d) :
    configReadable (docAddConfig d) := by
  intro w hw
  rcases hF : findSheet d "Config" with _ | wc
  · rw [findSheet_docAddConfig_new hF] at hw
    have hwc := Option.some_inj.mp hw
    rw [← hwc]
    intro hnone
    exact Option.noConfusion (readRangeG_defaults.symm.trans hnone)
  · rw [findSheet_docAddConfig_found hF] at hw
    have hwc := Option.some_inj.mp hw
    rw [← hwc]
    exact h wc hF

/-- Found lookups survive period-segment provisioning. -/
theorem findSheet_docAfterCreate_old {d : Doc} {nm n : String} {wn : Worksheet}
    (hwn : findSheet d n = some wn) :
    findSheet (docAfterCreate d nm) n = some wn := by
  show findSheet
    ⟨(if "Config" ∈ d.titles then d else docAddConfig d).sheets ++
      [⟨nm, (if "Config" ∈ d.titles then d else docAddConfig d).nextId,
        newSheetLayoutGrid⟩],
     (if "Config" ∈ d.titles then d else docAddConfig d).nextId + 1⟩ n = some wn
  by_cases hcfg : "Config" ∈ d.titles
  · rw [if_pos hcfg]
    unfold findSheet at hwn
    exact findSheet_sheets_append _ hwn
  · rw [if_neg hcfg]
    have h2 := findSheet_docAddConfig_found hwn
    unfold findSheet at h2
    exact findSheet_sheets_append _ h2

theorem configReadable_docAfterCreate {d : Doc} (nm : String) (h : configReadable d) :
    configReadable (docAfterCreate d nm) := by
  intro w hw
  rcases hF : findSheet d "Config" with _ | wc
  · have hnc : "Config" ∉ d.titles := by
      intro hmem
      rcases findSheet_isSome hmem with ⟨w0, hw0⟩
      rw [hF] at hw0
      exact Option.noConfusion hw0
    have h1 : findSheet (docAfterCreate d nm) "Config" =
        some ⟨"Config", d.nextId, [["Hourly Rate", "100"], ["Timezone", "UTC"]]⟩ := by
      show findSheet
        ⟨(if "Config" ∈ d.titles then d else docAddConfig d).sheets ++
          [⟨nm, (if "Config" ∈ d.titles then d else docAddConfig d).nextId,
            newSheetLayoutGrid⟩],
         (if "Config" ∈ d.titles then d else docAddConfig d).nextId + 1⟩ "Config" = _
      rw [if_neg hnc]
      have h2 := findSheet_docAddConfig_new hF
      unfold findSheet at h2
      exact findSheet_sheets_append _ h2
    rw [h1] at hw
    have hwc := Option.some_inj.mp hw
    rw [← hwc]
    intro hnone
    exact Option.noConfusion (readRangeG_defaults.symm.trans hnone)
  · rw [findSheet_docAfterCreate_old hF] at hw
    have hwc := Option.some_inj.mp hw
    rw [← hwc]
    exact h wc hF

theorem configReadable_docAppendRow {d : Doc} {t : String}
    (ht : dateRegexTest t = true) (row : List String) (h : configReadable d) :
    configReadable (docAppendRow d t row) := by
  intro w hw
  rw [findSheet_docAppendRow] at hw
  rcases hF : findSheet d "Config" with _ | wc
  · rw [hF] at hw
    exact Option.noConfusion hw
  · rw [hF] at hw
    simp only [Option.map_some'] at hw
    have hct : wc.title ≠ t := by
      rw [(findSheet_mem hF).2]
      exact (dateRegexTest_ne_config ht).symm
    rw [if_neg hct] at hw
    have hwc := Option.some_inj.mp hw
    rw [← hwc]
    exact h wc hF

/-- A closed resolution means every date-pattern title is flagged
closed. -/
theorem currentSheetPure_none_flags {d : Doc} (h : currentSheetPure d = none) :
    ∀ n ∈ d.titles, dateRegexTest n = true → flagIsOpen (sheetFlagData d n) = false := by
  intro n hn hp
  unfold currentSheetPure at h
  have hmem : n ∈ sortDesc (d.titles.filter dateRegexTest) :=
    mem_sortDesc.mpr (List.mem_filter.mpr ⟨hn, hp⟩)
  have h2 := List.find?_eq_none.mp h n hmem
  simpa using h2

theorem docAfterCreate_wf {d : Doc} (h : d.wf) (nm : String) :
    (docAfterCreate d nm).wf := by
  have h1 : (if "Config" ∈ d.titles then d else docAddConfig d).wf := by
    by_cases hcfg : "Config" ∈ d.titles
    · rw [if_pos hcfg]; exact h
    · rw [if_neg hcfg]; exact docAddConfig_wf h
  intro w hw
  show w.sid < (if "Config" ∈ d.titles then d else docAddConfig d).nextId + 1
  have hw' : w ∈ (if "Config" ∈ d.titles then d else docAddConfig d).sheets ++
      [⟨nm, (if "Config" ∈ d.titles then d else docAddConfig d).nextId,
        newSheetLayoutGrid⟩] := hw
  rcases List.mem_append.mp hw' with h2 | h2
  · exact Nat.lt_succ_of_lt (h1 w h2)
  · simp only [List.mem_singleton] at h2
    subst h2
    exact Nat.lt_succ_self _

/-- Period-segment provisioning does not change existing titles'
flags. -/
theorem sheetFlagData_docAfterCreate {d : Doc} (nm : String) {n : String}
    (hn : n ∈ d.titles) :
    sheetFlagData (docAfterCreate d nm) n = sheetFlagData d n := by
  rcases findSheet_isSome hn with ⟨wn, hwn⟩
  unfold sheetFlagData
  rw [hwn, findSheet_docAfterCreate_old hwn]

/-- After provisioning today's segment on a document whose resolution
was closed, the fresh segment resolves as current. -/
theorem currentSheetPure_docAfterCreate {d : Doc} {nm : String}
    (hpat : dateRegexTest nm = true) (hnew : nm ∉ d.titles)
    (hclosed : currentSheetPure d = none) :
    currentSheetPure (docAfterCreate d nm) = some nm := by
  have hflags := currentSheetPure_none_flags hclosed
  unfold currentSheetPure
  apply find?_unique_some
  · rw [mem_sortDesc]
    apply List.mem_filter.mpr
    refine ⟨?_, hpat⟩
    rw [docAfterCreate_titles]
    exact List.mem_append.mpr (Or.inr (List.mem_singleton.mpr rfl))
  · have hF := findSheet_docAfterCreate hnew (dateRegexTest_ne_config hpat)
    unfold sheetFlagData
    rw [hF]
    rfl
  · intro x hx hxne
    rw [mem_sortDesc] at hx
    have hx1 := List.mem_filter.mp hx
    have hxt := hx1.1
    have hxp := hx1.2
    rw [docAfterCreate_titles] at hxt
    have hxd : x ∈ d.titles := by
      rcases List.mem_append.mp hxt with h1 | h1
      · by_cases hcfg : "Config" ∈ d.titles
        · rw [if_pos hcfg] at h1; exact h1
        · rw [if_neg hcfg] at h1
          rcases List.mem_append.mp h1 with h2 | h2
          · exact h2
          · exfalso
            simp only [List.mem_singleton] at h2
            rw [h2, dateRegexTest_config] at hxp
            exact Bool.noConfusion hxp
      · exfalso
        simp only [List.mem_singleton] at h1
        exact hxne h1
    rw [sheetFlagData_docAfterCreate nm hxd]
    exact hflags x hxd hxp

/-- A `startTimer` on a state whose document already resolves to a
running segment fails with `TimerAlreadyRunning`, whatever the clock or
cache. -/
theorem startTimer_second_running {s2 : EngineState} {cs : String} {w : Worksheet}
    (tzdb : Tzdb) (hwf : s2.doc.wf) (hcfgR : configReadable s2.doc)
    (hcs : currentSheetPure s2.doc = some cs)
    (hw : findSheet s2.doc cs = some w)
    (hrun : isTimerRunningData (readRangeG w.grid .a6c) = true) :
    (startTimer tzdb s2).1 = .error .timerAlreadyRunning := by
  obtain ⟨cfg2, s12, ops12, hg2, hdoc12, _, _, _⟩ := getConfig_ok s2 hwf hcfgR
  have hcs12 : currentSheetPure s12.doc = some cs := by
    rcases hdoc12 with h | ⟨_, h⟩
    · rw [h]; exact hcs
    · rw [h, currentSheetPure_docAddConfig]; exact hcs
  have hw12 : findSheet s12.doc cs = some w := by
    rcases hdoc12 with h | ⟨_, h⟩
    · rw [h]; exact hw
    · rw [h]; exact findSheet_docAddConfig_found hw
  obtain ⟨ops2, herr, _⟩ := startTimer_run_running tzdb hg2 hcs12 hw12 hrun
  rw [herr]

/-- With the empty zone database every conversion falls back to the
original instant. -/
theorem getDateInTimezone_empty (d : DateTime) (tz : String) :
    getDateInTimezone tzdbEmpty d (some tz) = d := by
  show (if tz = "" ∨ tz = "UTC" then d else
    match tzdbEmpty tz d with
    | some converted => converted
    | none => d) = d
  by_cases h : tz = "" ∨ tz = "UTC"
  · rw [if_pos h]
  · rw [if_neg h]
    rfl

/-- Witness for C8: the concrete provisioning run on a document holding
only the populated Config segment. -/
theorem createNewTimeSheet_layout_witness :
    "2024-05-01" = toISODate (getDateInTimezone tzdbEmpty stNoSegments.nowUtc (some "UTC")) ∧
    "Config" ∈ (docAfterCreate stNoSegments.doc "2024-05-01").titles ∧
    "2024-05-01" ∈ (docAfterCreate stNoSegments.doc "2024-05-01").titles ∧
    ∃ ops0 nid,
      ([.getWorksheets, .createWorksheet "2024-05-01",
        .batchUpdate (createNewTimeSheetRequests 1)] : List StoreOp) =
        ops0 ++ [.createWorksheet "2024-05-01",
                 .batchUpdate (createNewTimeSheetRequests nid)] ∧
      (∀ op ∈ ops0, op = .getWorksheets ∨ op = .createWorksheet "Config" ∨
        ∃ cid, op = .batchUpdate (configSheetRequests cid)) ∧
      .checkboxValidation nid 0 0 ∈ createNewTimeSheetRequests nid ∧
      .updateCells nid 1 0 [[.str "Total Hours:", .formula "=SUM(D6:D)"],
        [.str "Total Billable:", .formula "=SUM(E6:E)"]] ∈ createNewTimeSheetRequests nid ∧
      .updateCells nid 4 0 [[.str "Date", .str "Start", .str "End", .str "Total Time",
        .str "Billable Amount"]] ∈ createNewTimeSheetRequests nid ∧
      .updateCells nid 5 3 [[.formula "=IF(C6<>\"\", C6-B6, \"\")",
        .formula "=IF(D6<>\"\", D6*24*Config!$B$1, \"\")"]] ∈ createNewTimeSheetRequests nid := by
  have h := createNewTimeSheet_layout tzdbEmpty (some "UTC") stNoSegments
    (by intro w hw; simp only [List.mem_singleton, stNoSegments] at hw ⊢; subst hw; decide)
    (show createNewTimeSheet tzdbEmpty (some "UTC") stNoSegments =
      (.ok "2024-05-01",
       { doc := docAfterCreate stNoSegments.doc "2024-05-01", cache := none, nowMs := 1000,
         nowUtc := ⟨2024, 5, 1, 0, 0, 0⟩ },
       [.getWorksheets, .createWorksheet "2024-05-01",
        .batchUpdate (createNewTimeSheetRequests 1)]) from rfl)
  exact h

/-- A document whose period segment violates the fixed layout: its grid
has a single entry row, so the `A6:C` data region cannot see appended
entries. -/
def stBadLayout : EngineState :=
  ⟨⟨[configSheetW, ⟨"2024-01-01", 1, [["x"]]⟩], 2⟩, none, 1000, ⟨2024, 5, 1, 10, 0, 0⟩⟩

/-- Counterexample to C4 as stated: on a layout-violating document the
first `startTimer` succeeds, but its appended entry lands above row 6
where the `A6:C` read cannot see it, so the immediately following
`startTimer` with no intervening stop does not fail with
`TimerAlreadyRunning` — it succeeds again. -/
theorem double_start_counterexample :
    (startTimer tzdbEmpty stBadLayout).1 =
      .ok ⟨"2024-01-01", "2024-05-01", "10:00:00 AM"⟩ ∧
    (startTimer tzdbEmpty (startTimer tzdbEmpty stBadLayout).2.1).1 ≠
      .error .timerAlreadyRunning := by
  refine ⟨rfl, ?_⟩
  intro h
  have h2 : (Except.ok (⟨"2024-01-01", "2024-05-01", "10:00:00 AM"⟩ : StartResult) :
      Except TError StartResult) = .error .timerAlreadyRunning :=
    (show (startTimer tzdbEmpty (startTimer tzdbEmpty stBadLayout).2.1).1 =
      .ok ⟨"2024-01-01", "2024-05-01", "10:00:00 AM"⟩ from rfl).symm.trans h
  exact Except.noConfusion h2

/-- **C4** (amended).  The original claim fails on documents whose
current segment violates the fixed layout (`double_start_counterexample`):
a successful `startTimer` appends its entry where the `A6:C` read
cannot see it and a second `startTimer` succeeds again.  Amended to
well-formed documents whose date-pattern segments keep at least five
rows above the data region, whose Config segment — when present —
reads back nonempty, and whose timezone-adjusted segment names match
the date pattern: after a successful `startTimer`, an immediately
following `startTimer` on the resulting state (any clock, no
intervening stop) fails with `TimerAlreadyRunning`; and `stopTimer` on
a document with no date-pattern segment at all (no start ever ran)
fails with `NoActiveTimer`. -/
theorem start_start_stop_guards (tzdb : Tzdb) (s : EngineState) (hwf : s.doc.wf)
    (hlayout : ∀ w ∈ s.doc.sheets, dateRegexTest w.title = true → 5 ≤ w.grid.length)
    (hcfg : ∀ w, findSheet s.doc "Config" = some w → readRangeG w.grid .a1b10 ≠ none)
    (hdate : ∀ tz, dateRegexTest
      (toISODate (getDateInTimezone tzdb s.nowUtc (some tz))) = true) :
    (∀ r s' ops, startTimer tzdb s = (.ok r, s', ops) →
      ∀ m2 u2, (startTimer tzdb { s' with nowMs := m2, nowUtc := u2 }).1 =
        .error .timerAlreadyRunning) ∧
    (∀ endT, (∀ w ∈ s.doc.sheets, dateRegexTest w.title = false) →
      (stopTimer tzdb endT s).1 = .error .noActiveTimer) := by
  obtain ⟨cfg, s1, ops1, hg, hdoc1, hwf1, hu1, hm1⟩ := getConfig_ok s hwf hcfg
  have hcfgR1 : configReadable s1.doc := by
    rcases hdoc1 with h | ⟨_, h⟩
    · rw [h]; exact hcfg
    · rw [h]; exact configReadable_docAddConfig hcfg
  have hlayout1 : ∀ w ∈ s1.doc.sheets, dateRegexTest w.title = true →
      5 ≤ w.grid.length := by
    rcases hdoc1 with h | ⟨_, h⟩
    · rw [h]; exact hlayout
    · rw [h]
      intro w hw hp
      have hw' : w ∈ s.doc.sheets ++
          [(⟨"Config", s.doc.nextId,
            [["Hourly Rate", "100"], ["Timezone", "UTC"]]⟩ : Worksheet)] := hw
      rcases List.mem_append.mp hw' with h1 | h1
      · exact hlayout w h1 hp
      · exfalso
        simp only [List.mem_singleton] at h1
        rw [h1] at hp
        have hp' : dateRegexTest "Config" = true := hp
        exact absurd hp' (by decide)
  constructor
  · intro r s' ops hstart m2 u2
    rcases hcs : currentSheetPure s1.doc with _ | cs
    · have hnmp : dateRegexTest
          (toISODate (getDateInTimezone tzdb s1.nowUtc (some (timezoneOf cfg)))) = true := by
        rw [hu1]; exact hdate _
      by_cases hdup : toISODate (getDateInTimezone tzdb s1.nowUtc (some (timezoneOf cfg)))
          ∈ s1.doc.titles
      · exfalso
        obtain ⟨s2, ops2, hfail⟩ := startTimer_run_create_dup tzdb hg hcs hwf1 hdup
        rw [hstart] at hfail
        simp only [Prod.mk.injEq] at hfail
        exact Except.noConfusion hfail.1
      · obtain ⟨ops2, hok⟩ := startTimer_run_create_idle tzdb hg hcs hwf1 hdup
        rw [hstart] at hok
        have hs' : s' = { s1 with doc := (docAppendRow
            (docAfterCreate s1.doc
              (toISODate (getDateInTimezone tzdb s1.nowUtc (some (timezoneOf cfg)))))
            (toISODate (getDateInTimezone tzdb s1.nowUtc (some (timezoneOf cfg))))
            [toISODate (getDateInTimezone tzdb s1.nowUtc (some (timezoneOf cfg))),
             formatTime12Hour (getDateInTimezone tzdb s1.nowUtc (some (timezoneOf cfg)))]) } :=
          congrArg (fun p => p.2.1) hok
        have hdoc2 : ({ s' with nowMs := m2, nowUtc := u2 } : EngineState).doc =
            docAppendRow
              (docAfterCreate s1.doc
                (toISODate (getDateInTimezone tzdb s1.nowUtc (some (timezoneOf cfg)))))
              (toISODate (getDateInTimezone tzdb s1.nowUtc (some (timezoneOf cfg))))
              [toISODate (getDateInTimezone tzdb s1.nowUtc (some (timezoneOf cfg))),
               formatTime12Hour (getDateInTimezone tzdb s1.nowUtc (some (timezoneOf cfg)))] := by
          rw [hs']
        have hfnm := findSheet_docAfterCreate hdup (dateRegexTest_ne_config hnmp)
        have hgridne : ((⟨toISODate (getDateInTimezone tzdb s1.nowUtc (some (timezoneOf cfg))),
            (if "Config" ∈ s1.doc.titles then s1.doc.nextId else s1.doc.nextId + 1),
            newSheetLayoutGrid⟩ : Worksheet)).grid ≠ [] := by
          intro hnil
          exact List.noConfusion hnil
        apply startTimer_second_running tzdb
        · rw [hdoc2]
          exact docAppendRow_wf (docAfterCreate_wf hwf1 _) _ _
        · rw [hdoc2]
          exact configReadable_docAppendRow hnmp _ (configReadable_docAfterCreate _ hcfgR1)
        · rw [hdoc2]
          rw [currentSheetPure_congr (docAppendRow_titles _ _ _)
            (fun n _ => sheetFlagData_docAppendRow hfnm hgridne _ n)]
          exact currentSheetPure_docAfterCreate hnmp hdup hcs
        · rw [hdoc2]
          rw [findSheet_docAppendRow, hfnm]
          simp only [Option.map_some']
          simp only [if_true]
          rfl
        · exact isTimerRunningData_append (by decide) (formatTime12Hour_ne_empty _)
    · obtain ⟨hcst, hcsp, _⟩ := currentSheetPure_mem hcs
      obtain ⟨w, hw⟩ := findSheet_isSome hcst
      have hwmem := (findSheet_mem hw).1
      have hwtitle := (findSheet_mem hw).2
      have h5 : 5 ≤ w.grid.length := hlayout1 w hwmem (by rw [hwtitle]; exact hcsp)
      have hgridne : w.grid ≠ [] := by
        intro h0
        rw [h0] at h5
        simp at h5
      cases hrun : isTimerRunningData (readRangeG w.grid .a6c) with
      | true =>
        exfalso
        obtain ⟨ops2, herr, _⟩ := startTimer_run_running tzdb hg hcs hw hrun
        rw [hstart] at herr
        simp only [Prod.mk.injEq] at herr
        exact Except.noConfusion herr.1
      | false =>
        obtain ⟨ops2, hok, _⟩ := startTimer_run_idle tzdb hg hcs hw hrun
        rw [hstart] at hok
        have hs' : s' = { s1 with doc := (docAppendRow s1.doc cs
            [toISODate (getDateInTimezone tzdb s1.nowUtc (some (timezoneOf cfg))),
             formatTime12Hour (getDateInTimezone tzdb s1.nowUtc (some (timezoneOf cfg)))]) } :=
          congrArg (fun p => p.2.1) hok
        have hdoc2 : ({ s' with nowMs := m2, nowUtc := u2 } : EngineState).doc =
            docAppendRow s1.doc cs
              [toISODate (getDateInTimezone tzdb s1.nowUtc (some (timezoneOf cfg))),
               formatTime12Hour (getDateInTimezone tzdb s1.nowUtc (some (timezoneOf cfg)))] := by
          rw [hs']
        apply startTimer_second_running tzdb
        · rw [hdoc2]
          exact docAppendRow_wf hwf1 _ _
        · rw [hdoc2]
          exact configReadable_docAppendRow hcsp _ hcfgR1
        · rw [hdoc2]
          rw [currentSheetPure_congr (docAppendRow_titles _ _ _)
            (fun n _ => sheetFlagData_docAppendRow hw hgridne _ n)]
          exact hcs
        · rw [hdoc2]
          rw [findSheet_docAppendRow, hw]
          simp only [Option.map_some']
          rw [if_pos hwtitle]
        · exact isTimerRunningData_append h5 (formatTime12Hour_ne_empty _)
  · intro endT hnodate
    have hnone : currentSheetPure s1.doc = none := by
      apply currentSheetPure_none_of_no_match
      intro n hn
      rcases hdoc1 with h | ⟨_, h⟩
      · rw [h] at hn
        rcases List.mem_map.mp hn with ⟨w, hww, rfl⟩
        exact hnodate w hww
      · rw [h, docAddConfig_titles] at hn
        rcases List.mem_append.mp hn with h1 | h1
        · rcases List.mem_map.mp h1 with ⟨w, hww, rfl⟩
          exact hnodate w hww
        · simp only [List.mem_singleton] at h1
          subst h1
          exact dateRegexTest_config
    obtain ⟨ops2, hrun, _⟩ := stopTimer_run_none tzdb endT hg hnone
    rw [hrun]

/-- Witness for the amended C4: starting on the Config-only document
provisions and starts the 2024-05-01 segment; a second start one second
later fails with `TimerAlreadyRunning`, and stopping the original
document fails with `NoActiveTimer`. -/
theorem start_start_stop_guards_witness :
    (startTimer tzdbEmpty
      { doc := docAppendRow (docAfterCreate stNoSegments.doc "2024-05-01")
          "2024-05-01" ["2024-05-01", "12:00:00 AM"],
        cache := some ([("Hourly Rate", "100"), ("Timezone", "UTC")], 1000),
        nowMs := 2000, nowUtc := ⟨2024, 5, 1, 0, 0, 1⟩ }).1 =
      .error .timerAlreadyRunning ∧
    (stopTimer tzdbEmpty none stNoSegments).1 = .error .noActiveTimer := by
  have h := start_start_stop_guards tzdbEmpty stNoSegments
    (by
      intro w hw
      simp only [List.mem_singleton, stNoSegments] at hw ⊢
      subst hw
      decide)
    (by decide)
    (by
      intro w hw
      have hwc := Option.some_inj.mp
        ((show findSheet stNoSegments.doc "Config" = some configSheetW from rfl).symm.trans hw)
      rw [← hwc]
      intro hnone
      exact Option.noConfusion ((show readRangeG configSheetW.grid .a1b10 =
        some [["Hourly Rate", "100"], ["Timezone", "UTC"]] from rfl).symm.trans hnone))
    (by
      intro tz
      rw [getDateInTimezone_empty]
      decide)
  refine ⟨?_, h.2 none (by decide)⟩
  exact h.1 ⟨"2024-05-01", "2024-05-01", "12:00:00 AM"⟩
    { doc := docAppendRow (docAfterCreate stNoSegments.doc "2024-05-01")
        "2024-05-01" ["2024-05-01", "12:00:00 AM"],
      cache := some ([("Hourly Rate", "100"), ("Timezone", "UTC")], 1000),
      nowMs := 1000, nowUtc := ⟨2024, 5, 1, 0, 0, 0⟩ }
    [.getWorksheetData "Config" .a1b10, .getWorksheets, .getWorksheets,
     .createWorksheet "2024-05-01", .batchUpdate (createNewTimeSheetRequests 1),
     .getWorksheetData "2024-05-01" .a6c,
     .appendRow "2024-05-01" ["2024-05-01", "12:00:00 AM"]]
    rfl 2000 ⟨2024, 5, 1, 0, 0, 1⟩

end TimeLedger
